import Mathlib

/-!
Verification development for the ai-agent trip-planning service
(`ai_agents.py`, `grpc_server.py`, `main.py`).

The Python source is shallowly embedded: pure string processing is
translated to Lean functions over `List Char` / `String`, Python `dict`
records become Lean structures, untyped JSON values (the output of
`json.loads`) become an inductive `Json` type, raised exceptions become
`Option` / `Except` values that the enclosing `try/except` blocks
resolve, and external effects (the generation model call, the network
fetch, `re.findall`) are passed in as explicit parameters so that
theorems quantify over every behaviour the external world can exhibit.

Library functions of CPython used by the source (`str.strip`,
`str.lower`, `str.split`, `float()`, `datetime.strptime` with format
"%Y-%m-%d", `timedelta` day arithmetic, `strftime`) are modelled
directly below; each model notes the cases it covers.  Machine floats
are modelled as exact rationals (the claims never depend on binary
rounding), and calendar dates as proleptic-Gregorian triples with the
standard day-number arithmetic, restricted to the zero-padded
`YYYY-MM-DD` rendering with years 1..9999 (the range accepted by
CPython's `datetime`).
-/

/-! ## Python string primitives (over `List Char`) -/

/-- Whitespace set of Python's `str.strip()` (the ASCII part, which is all
the source ever produces around its tokens). -/
def pyIsSpace (c : Char) : Bool :=
  c == ' ' || c == '\t' || c == '\n' || c == '\r' || c == '\x0b' || c == '\x0c'

/-- `str.strip()` on a char list: drop whitespace from both ends. -/
def stripList (l : List Char) : List Char :=
  ((l.dropWhile pyIsSpace).reverse.dropWhile pyIsSpace).reverse

/-- `str.strip()`. -/
def pyStrip (s : String) : String := ⟨stripList s.data⟩

/-- One character of Python's `str.lower()`.  ASCII letters map as usual;
the Turkish dotted capital `İ` (U+0130) lowercases, as in CPython, to the
two code points `i` + combining dot above (U+0307).  Other characters the
source ever tests against are unchanged by `lower`. -/
def lowerChars (c : Char) : List Char :=
  if c = 'İ' then ['i', '̇'] else [c.toLower]

/-- `str.lower()` on a char list. -/
def lowerList (l : List Char) : List Char := (l.map lowerChars).flatten

/-- `str.lower()`. -/
def pyLower (s : String) : String := ⟨lowerList s.data⟩

/-- `pat in s` for strings: substring containment, as a Boolean scan. -/
def containsSub (pat : List Char) : List Char → Bool
  | [] => pat.isEmpty
  | c :: cs => pat.isPrefixOf (c :: cs) || containsSub pat cs

/-- `s.split(sep)` for a one-character separator, with Python semantics
(`"".split` gives `[""]`, separators at the ends give empty pieces). -/
def splitOnChar (sep : Char) : List Char → List (List Char)
  | [] => [[]]
  | c :: cs =>
    if c = sep then [] :: splitOnChar sep cs
    else
      match splitOnChar sep cs with
      | [] => [[c]]
      | h :: t => (c :: h) :: t

/-- `s.split(':', 1)` restricted to the two-piece case: the text before the
first `':'` and the text after it; `none` when there is no colon (in which
case the source's `[1]` index raises and the enclosing `except` fires). -/
def splitColon1 (l : List Char) : Option (List Char × List Char) :=
  match l.dropWhile (fun c => !(c == ':')) with
  | [] => none
  | _ :: rest => some (l.takeWhile (fun c => !(c == ':')), rest)

/-- Fuelled scan for `str.replace`; the fuel (initially the list length)
dominates the length of the remaining list, so the zero-fuel arm is never
reached while the list is non-empty. -/
def replaceFuel (pat rep : List Char) : Nat → List Char → List Char
  | _, [] => []
  | 0, l => l
  | fuel + 1, c :: cs =>
    if pat ≠ [] ∧ pat.isPrefixOf (c :: cs) then
      rep ++ replaceFuel pat rep fuel ((c :: cs).drop pat.length)
    else
      c :: replaceFuel pat rep fuel cs

/-- `s.replace(pat, rep)`: left-to-right, non-overlapping, as CPython. -/
def replaceList (pat rep l : List Char) : List Char :=
  replaceFuel pat rep l.length l

/-- Python string slicing `l[:n]` with an `int` bound (negative bounds
count from the end, clamped at zero). -/
def pySliceTo {α : Type} (l : List α) (n : Int) : List α :=
  if 0 ≤ n then l.take n.toNat else l.take ((l.length : Int) + n).toNat

/-- Decimal digit value of a character. -/
def digitVal? (c : Char) : Option Nat :=
  if c = '0' then some 0 else if c = '1' then some 1 else if c = '2' then some 2
  else if c = '3' then some 3 else if c = '4' then some 4 else if c = '5' then some 5
  else if c = '6' then some 6 else if c = '7' then some 7 else if c = '8' then some 8
  else if c = '9' then some 9 else none

/-- Accumulating decimal read; `none` on any non-digit. -/
def digitsToNat : List Char → Nat → Option Nat
  | [], acc => some acc
  | c :: cs, acc =>
    match digitVal? c with
    | some d => digitsToNat cs (acc * 10 + d)
    | none => none

/-- Unsigned part of Python `float()` on plain decimal literals
(`"39"`, `"39.5"`, `"1."`, `".5"`); exponents and underscores, which the
source never feeds it, are out of the model and yield `none`. -/
def pyFloatCore (l : List Char) : Option ℚ :=
  let intPart := l.takeWhile (·.isDigit)
  match l.dropWhile (·.isDigit) with
  | [] =>
    if intPart = [] then none
    else (digitsToNat intPart 0).map (fun n => (n : ℚ))
  | '.' :: frac =>
    if intPart = [] ∧ frac = [] then none
    else
      match digitsToNat intPart 0, digitsToNat frac 0 with
      | some i, some f => some ((i : ℚ) + (f : ℚ) / ((10 : ℚ) ^ frac.length))
      | _, _ => none
  | _ => none

/-- Python `float()` on a (stripped) string; `none` models `ValueError`. -/
def pyFloat (s : String) : Option ℚ :=
  match s.data with
  | '-' :: rest => (pyFloatCore rest).map Neg.neg
  | '+' :: rest => pyFloatCore rest
  | l => pyFloatCore l

/-- Python `int()` on a (stripped) string; `none` models `ValueError`. -/
def pyIntOfStr (s : String) : Option Int :=
  match stripList s.data with
  | '-' :: rest => if rest = [] then none else (digitsToNat rest 0).map (fun n => -(n : Int))
  | '+' :: rest => if rest = [] then none else (digitsToNat rest 0).map (fun n => (n : Int))
  | l => if l = [] then none else (digitsToNat l 0).map (fun n => (n : Int))

/-! ## Calendar model (for `datetime.strptime("%Y-%m-%d")`, `timedelta`, `strftime`) -/

structure Date where
  year : Nat
  month : Nat
  day : Nat
deriving DecidableEq, Repr

def isLeap (y : Nat) : Bool := y % 4 == 0 && (y % 100 != 0 || y % 400 == 0)

def daysInMonth (y m : Nat) : Nat :=
  if m == 2 then (if isLeap y then 29 else 28)
  else if m == 4 || m == 6 || m == 9 || m == 11 then 30
  else 31

/-- The calendar validity check performed by `datetime`: years 1..9999,
months 1..12, days within the month. -/
def validDate (d : Date) : Bool :=
  1 ≤ d.year && d.year ≤ 9999 && 1 ≤ d.month && d.month ≤ 12 &&
  1 ≤ d.day && d.day ≤ daysInMonth d.year d.month

/-- Days of year `y` that precede month `m`. -/
def monthDaysBefore (y m : Nat) : Nat :=
  (((List.range (m - 1)).map (fun i => daysInMonth y (i + 1)))).sum

/-- Proleptic-Gregorian day number (0001-01-01 ↦ 0); differences of this
number are exactly what `(end - start).days` computes in Python. -/
def dayNumber (d : Date) : Nat :=
  365 * (d.year - 1) + (d.year - 1) / 4 + (d.year - 1) / 400 - (d.year - 1) / 100 +
    monthDaysBefore d.year d.month + (d.day - 1)

/-- Calendar successor (used to model `timedelta(days=n)` addition). -/
def nextDay (d : Date) : Date :=
  if d.day < daysInMonth d.year d.month then ⟨d.year, d.month, d.day + 1⟩
  else if d.month < 12 then ⟨d.year, d.month + 1, 1⟩
  else ⟨d.year + 1, 1, 1⟩

/-- `d + timedelta(days = n)` for a forward offset. -/
def addDays (d : Date) : Nat → Date
  | 0 => d
  | n + 1 => nextDay (addDays d n)

/-- `datetime.strptime(s, "%Y-%m-%d")` on the canonical zero-padded
rendering (the only rendering the system itself ever produces);
`none` models the raised `ValueError`. -/
def parseDate (s : String) : Option Date :=
  match s.data with
  | [y1, y2, y3, y4, h1, m1, m2, h2, d1, d2] =>
    if h1 = '-' ∧ h2 = '-' then
      match digitVal? y1, digitVal? y2, digitVal? y3, digitVal? y4,
            digitVal? m1, digitVal? m2, digitVal? d1, digitVal? d2 with
      | some a, some b, some c, some d, some e, some f, some g, some h =>
        let dt : Date := ⟨((a * 10 + b) * 10 + c) * 10 + d, e * 10 + f, g * 10 + h⟩
        if validDate dt then some dt else none
      | _, _, _, _, _, _, _, _ => none
    else none
  | _ => none

/-- Render a decimal digit. -/
def digitChar (n : Nat) : Char :=
  if n = 0 then '0' else if n = 1 then '1' else if n = 2 then '2'
  else if n = 3 then '3' else if n = 4 then '4' else if n = 5 then '5'
  else if n = 6 then '6' else if n = 7 then '7' else if n = 8 then '8' else '9'

/-- Zero-padded two-digit rendering. -/
def pad2 (n : Nat) : List Char := [digitChar (n / 10 % 10), digitChar (n % 10)]

/-- Zero-padded four-digit rendering. -/
def pad4 (n : Nat) : List Char :=
  [digitChar (n / 1000 % 10), digitChar (n / 100 % 10), digitChar (n / 10 % 10),
   digitChar (n % 10)]

/-- `strftime("%Y-%m-%d")` for years 1..9999 (zero-padded, as CPython). -/
def formatDate (d : Date) : String :=
  ⟨pad4 d.year ++ '-' :: pad2 d.month ++ '-' :: pad2 d.day⟩

/-- `ai_agents.py` lines 261-263 (also 493-495): parse the two request
dates and derive `total_days = (end_date - start_date).days + 1`;
`none` models the `ValueError` that the callers' `except` blocks catch. -/
def computeTotalDays (start_date end_date : String) : Option Int :=
  match parseDate start_date, parseDate end_date with
  | some sd, some ed => some ((dayNumber ed : Int) - (dayNumber sd : Int) + 1)
  | _, _ => none

/-! ## Agent-side data model (`ai_agents.py`) -/

/-- The seven request fields that `grpc_server.AIService.GeneratePlan`
copies out of the inbound protobuf message into `prompt_data`
(lines 39-47); the same shape is consumed by the agent. -/
structure TripRequest where
  user_id : String
  name : String
  description : String
  start_position : String
  end_position : String
  start_date : String
  end_date : String
deriving DecidableEq, Repr

/-- `trip_data` (lines 266-269): the request plus the derived
`total_days`. -/
structure TripData where
  user_id : String
  name : String
  description : String
  start_position : String
  end_position : String
  start_date : String
  end_date : String
  total_days : Int
deriving DecidableEq, Repr

def toTripData (r : TripRequest) (n : Int) : TripData :=
  ⟨r.user_id, r.name, r.description, r.start_position, r.end_position,
   r.start_date, r.end_date, n⟩

/-- A location record as assembled by the agent (floats as exact ℚ). -/
structure Location where
  name : String
  address : String
  site_url : String
  latitude : ℚ
  longitude : ℚ
deriving DecidableEq, Repr

structure DailyPlanEntry where
  day : Nat
  date : String
  location : Location
deriving DecidableEq, Repr

structure Trip where
  user_id : String
  name : String
  description : String
  start_position : String
  end_position : String
  start_date : String
  end_date : String
  total_days : Int
deriving DecidableEq, Repr

structure TripOption where
  theme : String
  description : String
  trip : Trip
  daily_plan : List DailyPlanEntry
deriving DecidableEq, Repr

/-- The document the agent serialises with `json.dumps` (lines 350-354);
the embedding keeps the structured value, `json.dumps` being injective on
it. -/
structure TripPlanDoc where
  trip_options : List TripOption
deriving DecidableEq, Repr

/-- The `current_camp` dict of `_extract_camp_info` (line 372): keys are
present or absent, so every field is an `Option`. -/
structure CampInfo where
  name : Option String := none
  address : Option String := none
  site_url : Option String := none
  latitude : Option ℚ := none
  longitude : Option ℚ := none
deriving DecidableEq, Repr

/-- Python truthiness of the `current_camp` dict: non-empty iff some key
was ever set. -/
def campNonempty (c : CampInfo) : Bool :=
  c.name.isSome || c.address.isSome || c.site_url.isSome ||
  c.latitude.isSome || c.longitude.isSome

/-- Embeds `MainTripPlannerAgent._create_daily_plan_from_camp`
(lines 472-488).  The `strptime` on `trip_data['start_date']` can raise,
which the caller's `except` turns into the default plan; hence the
`Option`. -/
def createDailyPlanFromCamp (camp : CampInfo) (day : Nat) (td : TripData) :
    Option DailyPlanEntry :=
  (parseDate td.start_date).map fun sd =>
    { day := day
      date := formatDate (addDays sd (day - 1))
      location :=
        { name := camp.name.getD ("Camping " ++ toString day)
          address := camp.address.getD "Adres bilgisi yok"
          site_url := camp.site_url.getD ""
          latitude := camp.latitude.getD 39
          longitude := camp.longitude.getD 35 } }

/-- The `camp_info` dict literal opening `_parse_camp_text` (lines 437-443):
every key present with its default. -/
def initCamp : CampInfo :=
  { name := some "Bilinmeyen Camping", address := some "Adres bilgisi yok",
    site_url := some "", latitude := some 39, longitude := some 35 }

/-- One iteration of the line loop of `_parse_camp_text` (lines 446-468).
`if ':' in line` succeeds exactly when `splitColon1` does; the
`replace('-', '')` removes every dash, i.e. filters the character out. -/
def parseCampStep (camp : CampInfo) (lineRaw : List Char) : CampInfo :=
  let line := stripList lineRaw
  match splitColon1 line with
  | none => camp
  | some (k, v) =>
    let key := stripList (List.filter (fun c => !(c == '-')) (lowerList (stripList k)))
    let value := stripList v
    if containsSub "isim".data key || containsSub "i̇sim".data key ||
        containsSub "name".data key then
      { camp with name := some ⟨value⟩ }
    else if containsSub "adres".data key || containsSub "address".data key then
      { camp with address := some ⟨value⟩ }
    else if containsSub "web".data key || containsSub "site".data key ||
        containsSub "url".data key then
      { camp with site_url := some ⟨value⟩ }
    else if containsSub "latitude".data key || containsSub "lat".data key then
      match pyFloat ⟨value⟩ with
      | some q => { camp with latitude := some q }
      | none => camp
    else if containsSub "longitude".data key || containsSub "lng".data key ||
        containsSub "lon".data key then
      match pyFloat ⟨value⟩ with
      | some q => { camp with longitude := some q }
      | none => camp
    else camp

/-- Embeds `MainTripPlannerAgent._parse_camp_text` (lines 435-470). -/
def parseCampText (t : List Char) : CampInfo :=
  (splitOnChar '\n' t).foldl parseCampStep initCamp

/-- The default single-day plan appended when extraction found nothing
(`_extract_camp_info` lines 405-417). -/
def fallbackEntry406 (td : TripData) : DailyPlanEntry :=
  { day := 1, date := td.start_date,
    location := { name := "Varsayılan Kamp Alanı",
                  address := td.start_position ++ " yakını kamp alanı",
                  site_url := "", latitude := 39, longitude := 35 } }

/-- The single-day plan returned by the `except` arm of
`_extract_camp_info` (lines 421-433). -/
def exceptEntry423 (td : TripData) : DailyPlanEntry :=
  { day := 1, date := td.start_date,
    location := { name := "Varsayılan Kamp Alanı",
                  address := td.start_position ++ " yakını",
                  site_url := "", latitude := 39, longitude := 35 } }

/-- The loop over regex matches (`_extract_camp_info` lines 400-403):
each camp text is stripped, parsed, and appended with `day = i + 1`
(equal to the running length plus one, since this branch starts from the
empty list). -/
def regexLoop (td : TripData) :
    List String → List DailyPlanEntry → Option (List DailyPlanEntry)
  | [], plans => some plans
  | c :: cs, plans =>
    match createDailyPlanFromCamp (parseCampText (stripList c.data))
      (plans.length + 1) td with
    | none => none
    | some e => regexLoop td cs (plans ++ [e])

/-- The part of a stripped line after the first `':'`, stripped
(`line.split(':', 1)[1].strip()`); `none` when the line has no colon,
modelling the `IndexError` the outer `except` would catch. -/
def afterColonStripped (line : List Char) : Option (List Char) :=
  (splitColon1 line).map (fun p => stripList p.2)

/-- The alternative line-based scan of `_extract_camp_info`
(lines 370-393).  State: the plans built so far and the `current_camp`
dict.  A new `- isim:` line first flushes a non-empty current camp
(appending with `day = len(daily_plans) + 1`) and then restarts the camp
from the name alone. -/
def lineScan (td : TripData) :
    List (List Char) → List DailyPlanEntry → CampInfo →
    Option (List DailyPlanEntry × CampInfo)
  | [], plans, camp => some (plans, camp)
  | lraw :: ls, plans, camp =>
    let line := stripList lraw
    let low := lowerList line
    if "- i̇sim:".data.isPrefixOf low || "- isim:".data.isPrefixOf low then
      match afterColonStripped line with
      | none => none
      | some v =>
        if campNonempty camp then
          match createDailyPlanFromCamp camp (plans.length + 1) td with
          | none => none
          | some e => lineScan td ls (plans ++ [e]) { name := some ⟨v⟩ }
        else lineScan td ls plans { name := some ⟨v⟩ }
    else if "- adres:".data.isPrefixOf low then
      match afterColonStripped line with
      | none => none
      | some v => lineScan td ls plans { camp with address := some ⟨v⟩ }
    else if "- web sitesi:".data.isPrefixOf low || "- website:".data.isPrefixOf low then
      match afterColonStripped line with
      | none => none
      | some v => lineScan td ls plans { camp with site_url := some ⟨v⟩ }
    else if "- latitude:".data.isPrefixOf low then
      match afterColonStripped line with
      | none => none
      | some v =>
        lineScan td ls plans { camp with latitude := some ((pyFloat ⟨v⟩).getD 39) }
    else if "- longitude:".data.isPrefixOf low then
      match afterColonStripped line with
      | none => none
      | some v =>
        lineScan td ls plans { camp with longitude := some ((pyFloat ⟨v⟩).getD 35) }
    else
      lineScan td ls plans camp

/-- The two extraction branches of `_extract_camp_info` (lines 369-403),
parameterised by `camps`, the value of
`re.findall(r"KAMP YERİ \d+:(.*?)(?=KAMP YERİ \d+:|$)", research_text, ...)`:
the line-based scan when `re.findall` found nothing, otherwise the loop
over the first `total_days` regex matches.  The regex engine is external
to the embedding, so theorems quantify over every possible `camps` value;
`none` models a raised exception. -/
def extractBranches (camps : List String) (research_text : String)
    (td : TripData) : Option (List DailyPlanEntry) :=
  if camps.isEmpty then
    match lineScan td (splitOnChar '\n' research_text.data) [] {} with
    | none => none
    | some sc =>
      if campNonempty sc.2 then
        match createDailyPlanFromCamp sc.2 (sc.1.length + 1) td with
        | none => none
        | some e => some (sc.1 ++ [e])
      else some sc.1
  else
    regexLoop td (pySliceTo camps td.total_days) []

def extractCampInfoBody (camps : List String) (research_text : String)
    (td : TripData) : Option (List DailyPlanEntry) :=
  match extractBranches camps research_text td with
  | none => none
  | some plans =>
    some (pySliceTo (if plans.isEmpty then [fallbackEntry406 td] else plans)
      td.total_days)

/-- Embeds `MainTripPlannerAgent._extract_camp_info` (lines 360-433),
`except` arm included. -/
def extractCampInfo (camps : List String) (research_text : String)
    (td : TripData) : List DailyPlanEntry :=
  match extractCampInfoBody camps research_text td with
  | some l => l
  | none => [exceptEntry423 td]

/-- The `theme_info` table of `_create_json_from_research`
(lines 308-321). -/
def themeInfo : List (String × String × String) :=
  [("doğal", "Doğal Güzellikler Rotası",
    "Göller, şelaleler ve ormanlık alanlar gibi doğal harikaları keşfeden bir rota."),
   ("tarihi", "Tarihi Güzellikler Rotası",
    "Antik kentler, kaleler ve tarihi yapılar gibi kültürel mirasları barındıran bir rota."),
   ("macera", "Macera ve Aksiyon Rotası",
    "Dağcılık, rafting, yamaç paraşütü gibi aktivitelere uygun kamp alanlarını içeren bir rota.")]

/-- One `trip_option` dict of `_create_json_from_research`
(lines 323-348), for one `(agent_name, research_text)` pair.
`findall` stands for the `re.findall` call inside `_extract_camp_info`. -/
def mkTripOption (findall : String → List String) (td : TripData)
    (agent_name research_text : String) : TripOption :=
  let themeData :=
    ((themeInfo.map (fun t => (t.1, t.2))).lookup agent_name).getD
      ("Bilinmeyen Tema", "Tema açıklaması bulunamadı")
  { theme := themeData.1
    description := themeData.2
    trip := { user_id := td.user_id
              name := td.name ++ " - " ++ themeData.1
              description := td.description
              start_position := td.start_position
              end_position := td.end_position
              start_date := td.start_date
              end_date := td.end_date
              total_days := td.total_days }
    daily_plan := extractCampInfo (findall research_text) research_text td }

/-- Embeds `MainTripPlannerAgent._create_json_from_research`
(lines 303-358).  Its own `try` body is total in the embedding (every
exception inside is already resolved at a deeper level), so the
`except → _create_fallback_json` arm is unreachable. -/
def createJsonFromResearch (findall : String → List String)
    (research_results : List (String × String)) (td : TripData) : TripPlanDoc :=
  { trip_options := research_results.map (fun p => mkTripOption findall td p.1 p.2) }

/-- The per-theme outcome of `agent.research_camps` as observed by
`_run_research_parallel`: the returned text, or a raised exception with
its message.  The three fields are the fixed registration-ordered
researchers dict of `MainTripPlannerAgent.__init__` (lines 234-250). -/
structure ResearchOutcomes where
  dogal : Except String String
  tarihi : Except String String
  macera : Except String String

/-- The per-unit `try/except` of `_run_research_parallel`
(lines 291-299): a raised failure is replaced in place by the error
string, and the loop proceeds. -/
def resolveOutcome (agent_name : String) : Except String String → String
  | .ok r => r
  | .error e => agent_name ++ " araştırması başarısız: " ++ e

/-- Embeds `MainTripPlannerAgent._run_research_parallel` (lines 286-301):
despite the name, the units run sequentially in registration order. -/
def runResearchParallel (o : ResearchOutcomes) : List (String × String) :=
  [("doğal", resolveOutcome "doğal" o.dogal),
   ("tarihi", resolveOutcome "tarihi" o.tarihi),
   ("macera", resolveOutcome "macera" o.macera)]

/-- Embeds `MainTripPlannerAgent._create_fallback_json` (lines 490-579):
three fixed theme options, one default day each; `total_days` recomputed
from the request dates with 3 substituted when parsing raises. -/
def createFallbackJson (req : TripRequest) : TripPlanDoc :=
  let n : Int := (computeTotalDays req.start_date req.end_date).getD 3
  { trip_options :=
    [{ theme := "Doğal Güzellikler Rotası"
       description := "Göller, şelaleler ve ormanlık alanlar gibi doğal harikaları keşfeden bir rota."
       trip := { user_id := req.user_id
                 name := req.name ++ " - Doğal Güzellikler Rotası"
                 description := req.description
                 start_position := req.start_position
                 end_position := req.end_position
                 start_date := req.start_date
                 end_date := req.end_date
                 total_days := n }
       daily_plan := [{ day := 1, date := req.start_date,
                        location := { name := "Varsayılan Doğal Kamp Alanı"
                                      address := req.start_position ++ " yakını doğal kamp alanı"
                                      site_url := "", latitude := 39, longitude := 35 } }] },
     { theme := "Tarihi Güzellikler Rotası"
       description := "Antik kentler, kaleler ve tarihi yapılar gibi kültürel mirasları barındıran bir rota."
       trip := { user_id := req.user_id
                 name := req.name ++ " - Tarihi Güzellikler Rotası"
                 description := req.description
                 start_position := req.start_position
                 end_position := req.end_position
                 start_date := req.start_date
                 end_date := req.end_date
                 total_days := n }
       daily_plan := [{ day := 1, date := req.start_date,
                        location := { name := "Varsayılan Tarihi Kamp Alanı"
                                      address := req.start_position ++ " yakını tarihi kamp alanı"
                                      site_url := "", latitude := 39.1, longitude := 35.1 } }] },
     { theme := "Macera ve Aksiyon Rotası"
       description := "Dağcılık, rafting, yamaç paraşütü gibi aktivitelere uygun kamp alanlarını içeren bir rota."
       trip := { user_id := req.user_id
                 name := req.name ++ " - Macera ve Aksiyon Rotası"
                 description := req.description
                 start_position := req.start_position
                 end_position := req.end_position
                 start_date := req.start_date
                 end_date := req.end_date
                 total_days := n }
       daily_plan := [{ day := 1, date := req.start_date,
                        location := { name := "Varsayılan Macera Kamp Alanı"
                                      address := req.start_position ++ " yakını macera kamp alanı"
                                      site_url := "", latitude := 39.2, longitude := 35.2 } }] }] }

/-- Embeds `MainTripPlannerAgent.generate_trip_plan` (lines 255-284).
The only statement of its `try` body that can raise in the embedding is
the date parsing (`computeTotalDays = none`), which lands in the
`except → _create_fallback_json` arm.  The worker outcomes and the regex
engine are the external parameters. -/
def generateTripPlan (findall : String → List String) (o : ResearchOutcomes)
    (req : TripRequest) : TripPlanDoc :=
  match computeTotalDays req.start_date req.end_date with
  | some n => createJsonFromResearch findall (runResearchParallel o) (toTripData req n)
  | none => createFallbackJson req

/-! ## JSON values (`json.loads` output) and the gRPC layer (`grpc_server.py`) -/

/-- Untyped values produced by `json.loads`: JSON integers stay Python
`int` (distinct from floats, which protobuf integer fields reject), floats
are exact rationals, objects keep insertion order. -/
inductive Json where
  | null : Json
  | bool : Bool → Json
  | int : Int → Json
  | num : ℚ → Json
  | str : String → Json
  | arr : List Json → Json
  | obj : List (String × Json) → Json

/-- Python `key in value` for a string key: dict key membership, list
element membership, substring test on strings; `TypeError` on the rest. -/
def pyIn (k : String) : Json → Except Unit Bool
  | .obj kvs => .ok ((kvs.lookup k).isSome)
  | .arr xs => .ok (xs.any (fun x => match x with | .str s => s == k | _ => false))
  | .str s => .ok (containsSub k.data s.data)
  | _ => .error ()

/-- Python `value[k]` for a string key: dict lookup (`KeyError` when
absent); `TypeError` on anything else. -/
def pyIndexStr (j : Json) (k : String) : Except Unit Json :=
  match j with
  | .obj kvs => match kvs.lookup k with | some v => .ok v | none => .error ()
  | _ => .error ()

/-- Python iteration over a value: lists yield elements, strings yield
one-character strings, dicts yield their keys; `TypeError` otherwise. -/
def pyIter : Json → Except Unit (List Json)
  | .arr xs => .ok xs
  | .str s => .ok (s.data.map (fun c => .str ⟨[c]⟩))
  | .obj kvs => .ok (kvs.map (fun kv => Json.str kv.1))
  | _ => .error ()

/-- Python truthiness of a JSON value. -/
def jsonFalsy : Json → Bool
  | .null => true
  | .bool b => !b
  | .int n => n == 0
  | .num q => q == 0
  | .str s => s == ""
  | .arr xs => xs.isEmpty
  | .obj kvs => kvs.isEmpty

/-- Python `float(x)` on a JSON value; `none` models the
`ValueError`/`TypeError` the call sites catch. -/
def pyFloatOfJson : Json → Option ℚ
  | .num q => some q
  | .int n => some (n : ℚ)
  | .bool b => some (if b then 1 else 0)
  | .str s => pyFloat (pyStrip s)
  | _ => none

/-- Python `int(x)` on a JSON value (floats truncate towards zero);
`none` models `ValueError`/`TypeError`. -/
def pyIntOfJson : Json → Option Int
  | .int n => some n
  | .bool b => some (if b then 1 else 0)
  | .num q => some (q.num / (q.den : Int))
  | .str s => pyIntOfStr s
  | _ => none

/-- Assignment to a protobuf string field: accepts `str`, raises
`TypeError` otherwise. -/
def protoStr : Json → Except Unit String
  | .str s => .ok s
  | _ => .error ()

/-- The signed 32-bit range the protobuf runtime enforces on the `int32`
fields `day` and `total_days` (the generated `route_guide_pb2` module
lives outside `src/`; its setters raise `ValueError` when an `int` leaves
this range). -/
def int32Ok (n : Int) : Bool := -2147483648 ≤ n && n < 2147483648

/-- Assignment to a protobuf `int32` field: accepts Python `int` (and
`bool`, an `int` subclass) within the signed 32-bit range; floats and
everything else raise `TypeError`, and an out-of-range `int` raises
`ValueError` — either way the raise lands in the surrounding `except`. -/
def protoInt : Json → Except Unit Int
  | .int n => if int32Ok n then .ok n else .error ()
  | .bool b => .ok (if b then 1 else 0)
  | _ => .error ()

/-- `try: float(location_data[k]) except (ValueError, TypeError): fb` —
indexing a non-dict raises `TypeError`, which the same `except` catches
(`grpc_server.py` lines 130-142). -/
def floatFieldOr (j : Json) (k : String) (fb : ℚ) : ℚ :=
  match j with
  | .obj kvs =>
    match kvs.lookup k with
    | some v => (pyFloatOfJson v).getD fb
    | none => fb
  | _ => fb

/-- `try: int(trip_data[k]) except (ValueError, TypeError)` as an
`Option` (`grpc_server.py` lines 184-189). -/
def intIndexCaught (j : Json) (k : String) : Option Int :=
  match j with
  | .obj kvs => (kvs.lookup k).bind pyIntOfJson
  | _ => none

/-- Protobuf `Location` message. -/
structure GLocation where
  name : String
  address : String
  site_url : String
  latitude : ℚ
  longitude : ℚ
  notes : String
deriving DecidableEq, Repr

/-- Protobuf `DailyPlan` message. -/
structure GDailyPlan where
  day : Int
  date : String
  location : GLocation
deriving DecidableEq, Repr

/-- Protobuf `Trip` message. -/
structure GTrip where
  user_id : String
  name : String
  description : String
  start_position : String
  end_position : String
  start_date : String
  end_date : String
  total_days : Int
  route_summary : String
deriving DecidableEq, Repr

/-- Protobuf `TripOption` message. -/
structure GTripOption where
  theme : String
  description : String
  trip : GTrip
  daily_plan : List GDailyPlan
deriving DecidableEq, Repr

/-- Protobuf `TripOptionsResponse` message. -/
structure TripOptionsResponse where
  trip_options : List GTripOption
deriving DecidableEq, Repr

/-- Embeds `AIService._create_empty_options_response` (lines 304-309). -/
def emptyOptionsResponse : TripOptionsResponse := ⟨[]⟩

/-- The default day substituted by the per-day `except`
(`grpc_server.py` lines 159-175); the Python float `39.0 + i * 0.1` is
modelled exactly. -/
def defaultDaily (i j : Nat) : GDailyPlan :=
  ⟨(j : Int) + 1, "2024-01-01",
   ⟨"Varsayılan Kamp Alanı " ++ toString (j + 1), "Varsayılan adres", "",
    39 + (i : ℚ) / 10, 35 + (i : ℚ) / 10, "Hata nedeniyle varsayılan konum"⟩⟩

/-- The per-day `try` body of `_create_trip_options_response`
(lines 122-157): `Except` threads every raise the day-level handler
catches. -/
def processDailyBody (i j : Nat) (daily : Json) : Except Unit GDailyPlan :=
  match daily with
  | .obj dk => do
    let location_data := (dk.lookup "location").getD (.obj [])
    let hasLat ← pyIn "latitude" location_data
    let latitude : ℚ :=
      if hasLat then floatFieldOr location_data "latitude" (39 + (i : ℚ) / 10) else 0
    let hasLng ← pyIn "longitude" location_data
    let longitude : ℚ :=
      if hasLng then floatFieldOr location_data "longitude" (35 + (i : ℚ) / 10) else 0
    let dayv ← protoInt ((dk.lookup "day").getD (.int ((j : Int) + 1)))
    let datev ← protoStr ((dk.lookup "date").getD (.str ""))
    match location_data with
    | .obj lk => do
      let namev ← protoStr ((lk.lookup "name").getD (.str ("Kamp Alanı " ++ toString (j + 1))))
      let addrv ← protoStr ((lk.lookup "address").getD (.str "Adres bilgisi yok"))
      let urlv ← protoStr ((lk.lookup "site_url").getD (.str ""))
      let notesv ← protoStr ((lk.lookup "notes").getD (.str "")) 
      pure ⟨dayv, datev, ⟨namev, addrv, urlv, latitude, longitude, notesv⟩⟩
    | _ => .error ()
  | _ => .error ()

/-- One day with its `except` arm (lines 122-175). -/
def processDaily (i j : Nat) (daily : Json) : GDailyPlan :=
  match processDailyBody i j daily with
  | .ok d => d
  | .error () => defaultDaily i j

/-- The enumerated day loop (`for j, daily in enumerate(daily_plan_data)`). -/
def processDailies (i : Nat) : Nat → List Json → List GDailyPlan
  | _, [] => []
  | j, d :: ds => processDaily i j d :: processDailies i (j + 1) ds

/-- The per-option `try` body of `_create_trip_options_response`
(lines 112-212); an `error` is the raise that the option-level `except`
turns into `continue` (the option is skipped).  The `protoInt` bind on
`total_days` is the `Trip(...)` constructor's `int32` check
(lines 191-201): `int()` itself accepts any magnitude, but an
out-of-range result makes the constructor raise and the option skip. -/
def processOptionBody (i : Nat) (option_data : Json) : Except Unit GTripOption :=
  match option_data with
  | .obj o => do
    let daily_plan_data := (o.lookup "daily_plan").getD (.arr [])
    let ds ← pyIter daily_plan_data
    let daily_plans := processDailies i 0 ds
    let trip_data := (o.lookup "trip").getD (.obj [])
    let hasTd ← pyIn "total_days" trip_data
    let total_days : Int :=
      if hasTd then
        (intIndexCaught trip_data "total_days").getD
          (if daily_plans.isEmpty then 1 else (daily_plans.length : Int))
      else 1
    match trip_data with
    | .obj tk => do
      let uid ← protoStr ((tk.lookup "user_id").getD (.str ""))
      let namev ← protoStr ((tk.lookup "name").getD (.str ("Tema " ++ toString (i + 1))))
      let descv ← protoStr ((tk.lookup "description").getD (.str ""))
      let spv ← protoStr ((tk.lookup "start_position").getD (.str ""))
      let epv ← protoStr ((tk.lookup "end_position").getD (.str ""))
      let sdv ← protoStr ((tk.lookup "start_date").getD (.str ""))
      let edv ← protoStr ((tk.lookup "end_date").getD (.str ""))
      let rsv ← protoStr ((tk.lookup "route_summary").getD (.str ""))
      let tdv ← protoInt (.int total_days)
      let themev ← protoStr ((o.lookup "theme").getD (.str ("Tema " ++ toString (i + 1))))
      let odescv ← protoStr ((o.lookup "description").getD (.str ""))
      pure ⟨themev, odescv, ⟨uid, namev, descv, spv, epv, sdv, edv, tdv, rsv⟩,
            daily_plans⟩
    | _ => .error ()
  | _ => .error ()

/-- The enumerated option loop with `continue` on a caught raise. -/
def processOptions (i : Nat) : List Json → List GTripOption
  | [] => []
  | o :: rest =>
    match processOptionBody i o with
    | .ok t => t :: processOptions (i + 1) rest
    | .error () => processOptions (i + 1) rest

/-- The `try` body of `AIService._create_trip_options_response`
(lines 100-226); the only raise it can see in the embedding is iterating
a non-iterable `trip_options`, which the outer `except` (lines 228-231)
turns into the empty response. -/
def createTripOptionsResponseBody (parsed : Json) : Except Unit TripOptionsResponse :=
  match parsed with
  | .obj kvs =>
    let options_data := (kvs.lookup "trip_options").getD (.arr [])
    if jsonFalsy options_data then .ok emptyOptionsResponse
    else do
      let xs ← pyIter options_data
      let trip_options := processOptions 0 xs
      if trip_options.isEmpty then pure emptyOptionsResponse
      else pure ⟨trip_options⟩
  | _ => .error ()

/-- Embeds `AIService._create_trip_options_response` (lines 98-231). -/
def createTripOptionsResponse (parsed : Json) : TripOptionsResponse :=
  match createTripOptionsResponseBody parsed with
  | .ok r => r
  | .error () => emptyOptionsResponse

/-- `theme.split()[0]`: the first whitespace-delimited token (every theme
label is a non-blank literal, so the token exists). -/
def firstWord (s : String) : String :=
  ⟨(s.data.dropWhile pyIsSpace).takeWhile (fun c => !(pyIsSpace c))⟩

/-- One fallback option of `AIService._create_fallback_options_response`
(lines 254-293). -/
def mkGrpcFallbackOption (req : TripRequest) (i : Nat) (theme desc : String) :
    GTripOption :=
  { theme := theme
    description := desc
    trip := ⟨req.user_id, theme ++ " - " ++ req.name, desc, req.start_position,
             req.end_position, req.start_date, req.end_date, 3,
             req.start_position ++ " - " ++ req.end_position ++ " " ++ pyLower theme⟩
    daily_plan :=
      [⟨1, req.start_date,
        ⟨firstWord theme ++ " Kamp Alanı",
         req.start_position ++ " yakını " ++ pyLower theme ++ " temalı kamp alanı",
         "", 39 + (i : ℚ) / 10, 35 + (i : ℚ) / 10,
         "Varsayılan " ++ pyLower theme ++ " temalı kamp alanı"⟩⟩] }

/-- Embeds `AIService._create_fallback_options_response` (lines 233-302):
three fixed themes, `total_days = 3` hardcoded (source comment
"Varsayılan 3 gün"), one day-1 plan each.  Its `try` body is total in the
embedding, so the `except → empty response` arm is unreachable. -/
def createFallbackOptionsResponse (req : TripRequest) : TripOptionsResponse :=
  ⟨[mkGrpcFallbackOption req 0 "Doğal Güzellikler Rotası"
      "Göller, şelaleler ve ormanlık alanlar gibi doğal harikaları keşfeden bir rota.",
    mkGrpcFallbackOption req 1 "Tarihi Güzellikler Rotası"
      "Antik kentler, kaleler ve tarihi yapılar gibi kültürel mirasları barındıran bir rota.",
    mkGrpcFallbackOption req 2 "Macera ve Aksiyon Rotası"
      "Dağcılık, rafting, yamaç paraşütü gibi aktivitelere uygun kamp alanlarını içeren bir rota."]⟩

/-- The observable outcome of one `GeneratePlan` gRPC call: the returned
response and whether the handler set an error status on the context
(`context.set_code(grpc.StatusCode.INTERNAL)`, lines 94-95). -/
structure GrpcOutcome where
  response : TripOptionsResponse
  statusSet : Bool
deriving DecidableEq, Repr

/-- Embeds `AIService.GeneratePlan` (lines 31-96) downstream of the
generation call: `parsed` is the result of `json.loads(ai_response)`,
with `none` standing for the raised `json.JSONDecodeError` (inner
`except`, lines 80-83).  The checks on `trip_options` (lines 64-76)
return the fallback without any error status; a `TypeError` raised by
`in`/indexing on a non-container lands in the outer `except`
(lines 91-96), the only place that sets the INTERNAL status. -/
def GeneratePlan (req : TripRequest) (parsed : Option Json) : GrpcOutcome :=
  match parsed with
  | none => ⟨createFallbackOptionsResponse req, false⟩
  | some p =>
    match pyIn "trip_options" p with
    | .error () => ⟨createFallbackOptionsResponse req, true⟩
    | .ok false => ⟨createFallbackOptionsResponse req, false⟩
    | .ok true =>
      match pyIndexStr p "trip_options" with
      | .error () => ⟨createFallbackOptionsResponse req, true⟩
      | .ok tod =>
        match tod with
        | .arr xs =>
          if xs.length = 0 then ⟨createFallbackOptionsResponse req, false⟩
          else ⟨createTripOptionsResponse p, false⟩
        | _ => ⟨createFallbackOptionsResponse req, false⟩

/-! ## Serialisation of the agent document (`json.dumps` / `json.loads`) -/

/-- JSON encoding of a `Location` dict (key order as the source literal). -/
def locationToJson (l : Location) : Json :=
  .obj [("name", .str l.name), ("address", .str l.address),
        ("site_url", .str l.site_url), ("latitude", .num l.latitude),
        ("longitude", .num l.longitude)]

def entryToJson (e : DailyPlanEntry) : Json :=
  .obj [("day", .int (e.day : Int)), ("date", .str e.date),
        ("location", locationToJson e.location)]

def tripToJson (t : Trip) : Json :=
  .obj [("user_id", .str t.user_id), ("name", .str t.name),
        ("description", .str t.description), ("start_position", .str t.start_position),
        ("end_position", .str t.end_position), ("start_date", .str t.start_date),
        ("end_date", .str t.end_date), ("total_days", .int t.total_days)]

def optionToJson (o : TripOption) : Json :=
  .obj [("theme", .str o.theme), ("description", .str o.description),
        ("trip", tripToJson o.trip),
        ("daily_plan", .arr (o.daily_plan.map entryToJson))]

/-- `json.loads(json.dumps(doc))` for a document the agent built: the
round trip reproduces exactly this value (all keys distinct, days as
Python ints, floats as themselves). -/
def docToJson (d : TripPlanDoc) : Json :=
  .obj [("trip_options", .arr (d.trip_options.map optionToJson))]

/-! ## The Validator predicate (spec §4.3) -/

def hasKeyJ (k : String) (kvs : List (String × Json)) : Bool :=
  (kvs.lookup k).isSome

/-- Modelled from the spec: §4.3 Validator, location rule — each
`location` must contain at least `name` and `address`.  (No validator
function exists under `src/`; the spec describes it as a component, so it
is reconstructed here from the spec's words.) -/
def validLocationJson : Json → Bool
  | .obj l => hasKeyJ "name" l && hasKeyJ "address" l
  | _ => false

/-- Modelled from the spec: §4.3 Validator, daily-plan entry rule — each
entry must contain `day`, `date`, `location`. -/
def validEntryJson : Json → Bool
  | .obj e =>
    hasKeyJ "day" e && hasKeyJ "date" e &&
    (match e.lookup "location" with
     | some loc => validLocationJson loc
     | none => false)
  | _ => false

/-- Modelled from the spec: §4.3 Validator, single-plan shape — a mapping
with `trip` (8 named fields) and a non-empty `daily_plan` sequence of
valid entries. -/
def validSingleJson : Json → Bool
  | .obj o =>
    (match o.lookup "trip" with
     | some (.obj t) =>
       ["user_id", "name", "description", "start_position", "end_position",
        "start_date", "end_date", "total_days"].all (fun k => hasKeyJ k t)
     | _ => false) &&
    (match o.lookup "daily_plan" with
     | some (.arr ds) => !ds.isEmpty && ds.all validEntryJson
     | _ => false)
  | _ => false

/-- Modelled from the spec: §4.3 Validator, multi-option entry rule — an
entry additionally carries `theme` and `description` and satisfies the
single-plan rules. -/
def validOptionJson (j : Json) : Bool :=
  validSingleJson j &&
  (match j with
   | .obj o => hasKeyJ "theme" o && hasKeyJ "description" o
   | _ => false)

/-- Modelled from the spec: §4.3 Validator, multi-option shape —
`trip_options` is a sequence of exactly `K` valid entries. -/
def validCollectionJson (K : Nat) : Json → Bool
  | .obj o =>
    match o.lookup "trip_options" with
    | some (.arr ts) => ts.length == K && ts.all validOptionJson
    | _ => false
  | _ => false

/-- Key `k` is absent or bound to a string (so feeding `get(k, default)`
to a protobuf string field cannot raise). -/
def strOrAbsentW (k : String) (kvs : List (String × Json)) : Bool :=
  match kvs.lookup k with
  | none => true
  | some (.str _) => true
  | some _ => false

/-- The value under `total_days`, when present, converts by `int()` to an
integer inside the protobuf signed 32-bit range, so the `Trip(...)`
constructor cannot raise on that field. -/
def tdOkW (t : List (String × Json)) : Bool :=
  match t.lookup "total_days" with
  | none => true
  | some v =>
    match pyIntOfJson v with
    | some n => int32Ok n
    | none => false

/-- The count-preservation precondition of the option loop: an option of
this shape is processed without the option-level `except` firing
(everything `_create_trip_options_response` feeds to a protobuf string
field is a string or absent, `trip` is a mapping or absent with an
in-range `total_days`, `daily_plan` is iterable or absent). -/
def wellTypedOption : Json → Bool
  | .obj o =>
    strOrAbsentW "theme" o && strOrAbsentW "description" o &&
    (match o.lookup "daily_plan" with
     | none => true
     | some (.arr _) => true
     | some (.str _) => true
     | some (.obj _) => true
     | some _ => false) &&
    (match o.lookup "trip" with
     | none => true
     | some (.obj t) =>
       strOrAbsentW "user_id" t && strOrAbsentW "name" t &&
       strOrAbsentW "description" t && strOrAbsentW "start_position" t &&
       strOrAbsentW "end_position" t && strOrAbsentW "start_date" t &&
       strOrAbsentW "end_date" t && strOrAbsentW "route_summary" t && tdOkW t
     | some _ => false)
  | _ => false

/-! ## Repairer (spec §4.1) and the fetch helper (`visit_webpage`) -/

/-- Modelled from the spec: §4.1 Repairer.  No repair transform exists
anywhere under `src/`; the definition follows the spec's words in its
stated order: trim outer whitespace; un-escape doubled quote characters;
un-escape literal backslash-n / backslash-t into real newline / tab;
strip a trailing comma immediately before a closing brace or bracket. -/
def repair (x : String) : String :=
  let s1 := stripList x.data
  let s2 := replaceList ['"', '"'] ['"'] s1
  let s3 := replaceList ['\\', 'n'] ['\n'] s2
  let s4 := replaceList ['\\', 't'] ['\t'] s3
  let s5 := replaceList [',', '\x7d'] ['\x7d'] s4
  let s6 := replaceList [',', ']'] [']'] s5
  ⟨s6⟩

/-- A maximal newline run after `re.sub(r"\n\x7b3,\x7d", "\n\n", ...)`:
runs of three or more collapse to two. -/
def pyNewlines (k : Nat) : List Char :=
  List.replicate (if 3 ≤ k then 2 else k) '\n'

/-- State machine for the newline-collapsing regex substitution
(`ai_agents.py` line 42): `pending` counts the newline run in progress. -/
def collapseAux : Nat → List Char → List Char
  | pending, [] => pyNewlines pending
  | pending, c :: cs =>
    if c = '\n' then collapseAux (pending + 1) cs
    else pyNewlines pending ++ c :: collapseAux 0 cs

def collapseNewlines (l : List Char) : List Char := collapseAux 0 l

/-- The truncation marker appended at line 45. -/
def kisaltMarker : String := "\n\n[İçerik kısaltıldı...]"

/-- Embeds `visit_webpage` (`ai_agents.py` lines 20-53).  The network
fetch plus the `markdownify` conversion are the external world: `fetch`
is `.ok` with the converted text, or `.error` with `str(e)` of whatever
the `try` body raised (request failure, bad status, conversion error).
The handler returns the error message as an ordinary string. -/
def visit_webpage (fetch : Except String String) : String :=
  match fetch with
  | .error e => "Web sayfası erişim hatası: " ++ e
  | .ok raw =>
    let md := collapseNewlines (stripList raw.data)
    if md.length > 5000 then ⟨md.take 5000⟩ ++ kisaltMarker else ⟨md⟩

/-! ## Lemmas: replace is the identity when the pattern does not occur -/

theorem replaceFuel_of_not_contains (pat rep : List Char) :
    ∀ (fuel : Nat) (l : List Char), containsSub pat l = false →
      replaceFuel pat rep fuel l = l := by
  intro fuel
  induction fuel with
  | zero => intro l _; cases l <;> rfl
  | succ n ih =>
    intro l h
    cases l with
    | nil => rfl
    | cons c cs =>
      unfold containsSub at h
      rw [Bool.or_eq_false_iff] at h
      unfold replaceFuel
      rw [if_neg (fun hc => by rw [h.1] at hc; exact Bool.noConfusion hc.2)]
      rw [ih cs h.2]

theorem replaceList_of_not_contains (pat rep l : List Char)
    (h : containsSub pat l = false) : replaceList pat rep l = l :=
  replaceFuel_of_not_contains pat rep l.length l h

/-! ## Lemmas: the collapsed text never contains three consecutive newlines -/

/-- Three consecutive newlines occur somewhere in the list. -/
def hasTriple : List Char → Bool
  | a :: b :: c :: rest => (a == '\n' && b == '\n' && c == '\n') || hasTriple (b :: c :: rest)
  | _ => false

theorem hasTriple_cons_of (c : Char) (t : List Char) (hc : ¬ c = '\n')
    (ht : hasTriple t = false) : hasTriple (c :: t) = false := by
  match t with
  | [] => rfl
  | [b] => rfl
  | b :: c2 :: r =>
    show ((c == '\n' && b == '\n' && c2 == '\n') || hasTriple (b :: c2 :: r)) = false
    rw [ht]
    simp [beq_eq_false_iff_ne.mpr hc]

theorem hasTriple_newlines_cons (m : Nat) (hm : m ≤ 2) (c : Char) (t : List Char)
    (hc : ¬ c = '\n') (h : hasTriple (c :: t) = false) :
    hasTriple (List.replicate m '\n' ++ c :: t) = false := by
  rcases (show m = 0 ∨ m = 1 ∨ m = 2 by omega) with rfl | rfl | rfl
  · simpa using h
  · cases t with
    | nil => rfl
    | cons d r =>
      show ((('\n' : Char) == '\n' && c == '\n' && d == '\n') || hasTriple (c :: d :: r)) = false
      rw [h]
      simp [beq_eq_false_iff_ne.mpr hc]
  · cases t with
    | nil =>
      show ((('\n' : Char) == '\n' && '\n' == '\n' && c == '\n') || hasTriple ['\n', c]) = false
      simp [hasTriple, beq_eq_false_iff_ne.mpr hc]
    | cons d r =>
      show ((('\n' : Char) == '\n' && '\n' == '\n' && c == '\n') ||
        hasTriple ('\n' :: c :: d :: r)) = false
      have h1 : hasTriple ('\n' :: c :: d :: r) = false := by
        show ((('\n' : Char) == '\n' && c == '\n' && d == '\n') || hasTriple (c :: d :: r)) = false
        rw [h]
        simp [beq_eq_false_iff_ne.mpr hc]
      rw [h1]
      simp [beq_eq_false_iff_ne.mpr hc]

theorem hasTriple_collapseAux (cs : List Char) : ∀ p, hasTriple (collapseAux p cs) = false := by
  induction cs with
  | nil =>
    intro p
    show hasTriple (pyNewlines p) = false
    unfold pyNewlines
    split
    · rfl
    · rcases (show p = 0 ∨ p = 1 ∨ p = 2 by omega) with rfl | rfl | rfl <;> rfl
  | cons c cs ih =>
    intro p
    unfold collapseAux
    split
    · exact ih (p + 1)
    · refine hasTriple_newlines_cons (if 3 ≤ p then 2 else p) (by split <;> omega) c _
        (by assumption) (hasTriple_cons_of c _ (by assumption) (ih 0))

/-! ## C4 -/

/-- C4 (corrected by `C4_counterexample`): for parseable dates the derived
`total_days` equals the day difference plus one, and it is at least 1
whenever the start date is not after the end date; every option the agent
then assembles carries exactly this `total_days`. -/
theorem C4_total_days (req : TripRequest) (sd ed : Date)
    (hs : parseDate req.start_date = some sd) (he : parseDate req.end_date = some ed) :
    computeTotalDays req.start_date req.end_date =
      some ((dayNumber ed : Int) - (dayNumber sd : Int) + 1) ∧
    (dayNumber sd ≤ dayNumber ed → 1 ≤ (dayNumber ed : Int) - (dayNumber sd : Int) + 1) ∧
    (∀ (f : String → List String) (o : ResearchOutcomes) (opt : TripOption),
      opt ∈ (generateTripPlan f o req).trip_options →
      opt.trip.total_days = (dayNumber ed : Int) - (dayNumber sd : Int) + 1) := by
  have hc : computeTotalDays req.start_date req.end_date =
      some ((dayNumber ed : Int) - (dayNumber sd : Int) + 1) := by
    unfold computeTotalDays
    rw [hs, he]
  refine ⟨hc, fun h => by omega, ?_⟩
  intro f o opt hmem
  unfold generateTripPlan at hmem
  rw [hc] at hmem
  simp only [createJsonFromResearch, runResearchParallel, List.map, List.mem_cons,
    List.not_mem_nil, or_false] at hmem
  rcases hmem with rfl | rfl | rfl <;> rfl

/-- C4 counterexample: a parseable request whose end date precedes its
start date gives `total_days = -1`, violating the claimed invariant
`total_days ≥ 1`. -/
theorem C4_counterexample :
    computeTotalDays "2024-06-03" "2024-06-01" = some (-1) ∧ ¬ (1 ≤ (-1 : Int)) := by
  exact ⟨by decide, by decide⟩

/-- C4 witness: the spec's own example, start 2024-06-01 and end
2024-06-03, yields `total_days = 3`. -/
theorem C4_witness :
    computeTotalDays "2024-06-01" "2024-06-03" = some 3 ∧ 1 ≤ (3 : Int) := by
  have h := C4_total_days ⟨"u", "n", "d", "A", "B", "2024-06-01", "2024-06-03"⟩
    ⟨2024, 6, 1⟩ ⟨2024, 6, 3⟩ (by decide) (by decide)
  exact ⟨by rw [h.1]; decide, by decide⟩

/-! ## C8 -/

/-- C8 (corrected by `C8_counterexample`): both fallback synthesizers are
deterministic functions of the request, but only the agent-side one
(`_create_fallback_json`) derives `total_days` from the request dates
(3 when they do not parse); the server-side one
(`_create_fallback_options_response`) always writes the constant 3. -/
theorem C8_fallback_total_days (req : TripRequest) :
    (∀ opt ∈ (createFallbackOptionsResponse req).trip_options, opt.trip.total_days = 3) ∧
    (∀ opt ∈ (createFallbackJson req).trip_options,
      opt.trip.total_days = (computeTotalDays req.start_date req.end_date).getD 3) := by
  constructor
  · intro opt hmem
    simp only [createFallbackOptionsResponse, List.mem_cons, List.not_mem_nil,
      or_false] at hmem
    rcases hmem with rfl | rfl | rfl <;> rfl
  · intro opt hmem
    simp only [createFallbackJson, List.mem_cons, List.not_mem_nil, or_false] at hmem
    rcases hmem with rfl | rfl | rfl <;> rfl

/-- C8 counterexample: for a 10-day request the server-side fallback still
reports `total_days = 3` in every option, not the value derived from the
dates. -/
theorem C8_counterexample :
    computeTotalDays "2024-06-01" "2024-06-10" = some 10 ∧
    ((createFallbackOptionsResponse
        ⟨"u", "Gezi", "d", "Ankara", "Izmir", "2024-06-01", "2024-06-10"⟩).trip_options.map
      (fun o => o.trip.total_days)) = [3, 3, 3] := by
  exact ⟨by decide, by decide⟩

/-- C8 witness: the two synthesizers evaluated on a concrete 10-day
request. -/
theorem C8_witness :
    (mkGrpcFallbackOption ⟨"u", "Gezi", "d", "Ankara", "Izmir", "2024-06-01", "2024-06-10"⟩ 0
      "Doğal Güzellikler Rotası"
      "Göller, şelaleler ve ormanlık alanlar gibi doğal harikaları keşfeden bir rota.").trip.total_days = 3 := by
  have h := (C8_fallback_total_days
    ⟨"u", "Gezi", "d", "Ankara", "Izmir", "2024-06-01", "2024-06-10"⟩).1
  exact h _ (List.Mem.head _)

/-! ## C9 -/

/-- C9 (corrected by `C9_counterexample`; the Repairer is modelled from
the spec, no repair transform existing under `src/`): repair strips a
trailing comma immediately before a closing brace — the spec's example
fragment becomes the same text without the comma — and repair is a no-op,
hence idempotent, on text already in repaired form (trimmed, no doubled
quote pair, no literal backslash-n or backslash-t, no comma directly
before a closing brace or bracket). -/
theorem C9_repair :
    repair "\x7bname: \"X\", val: 1,\x7d" = "\x7bname: \"X\", val: 1\x7d" ∧
    ∀ s : String, stripList s.data = s.data →
      containsSub ['"', '"'] s.data = false →
      containsSub ['\\', 'n'] s.data = false →
      containsSub ['\\', 't'] s.data = false →
      containsSub [',', '\x7d'] s.data = false →
      containsSub [',', ']'] s.data = false →
      repair s = s ∧ repair (repair s) = repair s := by
  constructor
  · rfl
  · intro s h0 h1 h2 h3 h4 h5
    have hid : repair s = s := by
      show (⟨replaceList [',', ']'] [']']
        (replaceList [',', '\x7d'] ['\x7d']
          (replaceList ['\\', 't'] ['\t']
            (replaceList ['\\', 'n'] ['\n']
              (replaceList ['"', '"'] ['"'] (stripList s.data)))))⟩ : String) = s
      rw [h0, replaceList_of_not_contains _ _ _ h1, replaceList_of_not_contains _ _ _ h2,
        replaceList_of_not_contains _ _ _ h3, replaceList_of_not_contains _ _ _ h4,
        replaceList_of_not_contains _ _ _ h5]
    exact ⟨hid, by rw [hid, hid]⟩

/-- C9 counterexample: repair is not idempotent (four quote characters
shrink twice), and it rewrites already-valid JSON text (a list of two
empty strings), so parsing is not preserved either. -/
theorem C9_counterexample :
    repair (repair "\"\"\"\"") ≠ repair "\"\"\"\"" ∧
    repair "[\"\",\"\"]" ≠ "[\"\",\"\"]" := by
  exact ⟨by decide, by decide⟩

/-- C9 witness: a trimmed fragment with no doubled quotes, literal
escapes, or trailing comma is left untouched. -/
theorem C9_witness : repair "[\"a\", 1]" = "[\"a\", 1]" :=
  (C9_repair.2 "[\"a\", 1]" (by decide) (by decide) (by decide) (by decide)
    (by decide) (by decide)).1

/-! ## C10 -/

/-- C10 (confirmed): `visit_webpage` is total over every outcome of the
external fetch/convert step — a failure comes back as an ordinary string
(same type as page content), and a success is stripped, has newline runs
of three or more collapsed to two, and is truncated at 5000 characters
with the marker suffix appended, making the returned string longer than
5000. -/
theorem C10_visit_webpage_total (e raw : String) :
    visit_webpage (.error e) = "Web sayfası erişim hatası: " ++ e ∧
    hasTriple (collapseNewlines (stripList raw.data)) = false ∧
    (¬ 5000 < (collapseNewlines (stripList raw.data)).length →
      visit_webpage (.ok raw) = ⟨collapseNewlines (stripList raw.data)⟩) ∧
    (5000 < (collapseNewlines (stripList raw.data)).length →
      visit_webpage (.ok raw) =
        ⟨(collapseNewlines (stripList raw.data)).take 5000⟩ ++ kisaltMarker ∧
      (visit_webpage (.ok raw)).length = 5000 + kisaltMarker.length ∧
      5000 < (visit_webpage (.ok raw)).length) := by
  refine ⟨rfl, hasTriple_collapseAux _ 0, ?_, ?_⟩
  · intro h
    simp only [visit_webpage]
    rw [if_neg h]
  · intro h
    have heq : visit_webpage (.ok raw) =
        ⟨(collapseNewlines (stripList raw.data)).take 5000⟩ ++ kisaltMarker := by
      simp only [visit_webpage]
      rw [if_pos h]
    have hlen : (visit_webpage (.ok raw)).length = 5000 + kisaltMarker.length := by
      rw [heq, String.length_append]
      have : (String.mk ((collapseNewlines (stripList raw.data)).take 5000)).length
          = 5000 := by
        show ((collapseNewlines (stripList raw.data)).take 5000).length = 5000
        rw [List.length_take]
        exact Nat.min_eq_left (by omega)
      rw [this]
    refine ⟨heq, hlen, ?_⟩
    rw [hlen]
    have hm : kisaltMarker.length = 24 := by decide
    omega

/-- A 5100-character page body, used to exercise the truncation arm. -/
def bigA : String := ⟨List.replicate 5100 'a'⟩

theorem dropWhile_replicate_a (n : Nat) :
    (List.replicate n 'a').dropWhile pyIsSpace = List.replicate n 'a' := by
  cases n with
  | zero => rfl
  | succ m =>
    rw [List.replicate_succ, List.dropWhile_cons]
    simp [show pyIsSpace 'a' = false from rfl]

theorem stripList_replicate_a (n : Nat) :
    stripList (List.replicate n 'a') = List.replicate n 'a' := by
  unfold stripList
  rw [dropWhile_replicate_a, List.reverse_replicate, dropWhile_replicate_a,
    List.reverse_replicate]

theorem collapseAux_replicate_a (n : Nat) :
    collapseAux 0 (List.replicate n 'a') = List.replicate n 'a' := by
  induction n with
  | zero => rfl
  | succ m ih =>
    rw [List.replicate_succ]
    unfold collapseAux
    rw [if_neg (by decide)]
    rw [ih]
    rfl

/-- C10 witness: on the 5100-character body the returned string is the
5000-character prefix plus the marker, total length 5024 > 5000. -/
theorem C10_witness :
    5000 < (collapseNewlines (stripList bigA.data)).length ∧
    (visit_webpage (.ok bigA)).length = 5000 + kisaltMarker.length ∧
    5000 < (visit_webpage (.ok bigA)).length := by
  have hform : collapseNewlines (stripList bigA.data) = List.replicate 5100 'a' := by
    show collapseAux 0 (stripList (List.replicate 5100 'a')) = List.replicate 5100 'a'
    rw [stripList_replicate_a, collapseAux_replicate_a]
  have hlen : 5000 < (collapseNewlines (stripList bigA.data)).length := by
    rw [hform, List.length_replicate]
    omega
  have h := (C10_visit_webpage_total "" bigA).2.2.2 hlen
  exact ⟨hlen, h.2.1, h.2.2⟩

/-! ## The canonical date rendering inverts parsing -/

theorem digitVal?_digitChar (c : Char) (n : Nat) (h : digitVal? c = some n) :
    digitChar n = c ∧ n ≤ 9 := by
  unfold digitVal? at h
  repeat' split at h
  all_goals (cases h <;> (subst_vars ; exact ⟨rfl, by omega⟩))

theorem formatDate_of_parse (s : String) (d : Date) (h : parseDate s = some d) :
    formatDate d = s := by
  unfold parseDate at h
  split at h
  case h_2 => exact absurd h (by simp)
  case h_1 c1 c2 c3 c4 c5 c6 c7 c8 c9 c10 heq =>
    split at h
    case isFalse => exact absurd h (by simp)
    case isTrue hd =>
      split at h
      case h_2 => exact absurd h (by simp)
      case h_1 a b cc dd e f g hh ha hb hc hd' he hf hg hh' =>
        simp only [] at h
        split at h
        case isFalse => exact absurd h (by simp)
        case isTrue hv =>
          cases h
          obtain ⟨e1, b1⟩ := digitVal?_digitChar _ _ ha
          obtain ⟨e2, b2⟩ := digitVal?_digitChar _ _ hb
          obtain ⟨e3, b3⟩ := digitVal?_digitChar _ _ hc
          obtain ⟨e4, b4⟩ := digitVal?_digitChar _ _ hd'
          obtain ⟨e5, b5⟩ := digitVal?_digitChar _ _ he
          obtain ⟨e6, b6⟩ := digitVal?_digitChar _ _ hf
          obtain ⟨e7, b7⟩ := digitVal?_digitChar _ _ hg
          obtain ⟨e8, b8⟩ := digitVal?_digitChar _ _ hh'
          obtain ⟨hd1, hd2⟩ := hd
          have hs : s = ⟨[c1, c2, c3, c4, c5, c6, c7, c8, c9, c10]⟩ := by
            cases s with
            | mk data => exact congrArg String.mk heq
          rw [hs]
          show (⟨pad4 (((a * 10 + b) * 10 + cc) * 10 + dd) ++
            '-' :: pad2 (e * 10 + f) ++ '-' :: pad2 (g * 10 + hh)⟩ : String) = _
          have p1 : (((a * 10 + b) * 10 + cc) * 10 + dd) / 1000 % 10 = a := by omega
          have p2 : (((a * 10 + b) * 10 + cc) * 10 + dd) / 100 % 10 = b := by omega
          have p3 : (((a * 10 + b) * 10 + cc) * 10 + dd) / 10 % 10 = cc := by omega
          have p4 : (((a * 10 + b) * 10 + cc) * 10 + dd) % 10 = dd := by omega
          have q1 : (e * 10 + f) / 10 % 10 = e := by omega
          have q2 : (e * 10 + f) % 10 = f := by omega
          have r1 : (g * 10 + hh) / 10 % 10 = g := by omega
          have r2 : (g * 10 + hh) % 10 = hh := by omega
          unfold pad4 pad2
          rw [p1, p2, p3, p4, q1, q2, r1, r2, e1, e2, e3, e4, e5, e6, e7, e8, hd1, hd2]
          rfl

theorem parseDate_valid (s : String) (d : Date) (h : parseDate s = some d) :
    validDate d = true := by
  unfold parseDate at h
  split at h
  case h_2 => exact absurd h (by simp)
  case h_1 c1 c2 c3 c4 c5 c6 c7 c8 c9 c10 heq =>
    split at h
    case isFalse => exact absurd h (by simp)
    case isTrue hd =>
      split at h
      case h_2 => exact absurd h (by simp)
      case h_1 a b cc dd e f g hh ha hb hc hd' he hf hg hh' =>
        simp only [] at h
        split at h
        case isFalse => exact absurd h (by simp)
        case isTrue hv =>
          cases h
          exact hv

theorem daysInMonth_le (y m : Nat) : daysInMonth y m ≤ 31 := by
  unfold daysInMonth
  split_ifs <;> omega

theorem monthDaysBefore_le (y m : Nat) : monthDaysBefore y m ≤ 31 * (m - 1) := by
  unfold monthDaysBefore
  refine le_trans (List.sum_le_card_nsmul _ 31 ?_) ?_
  · intro x hx
    simp only [List.mem_map, List.mem_range] at hx
    obtain ⟨i, _, rfl⟩ := hx
    exact daysInMonth_le y (i + 1)
  · simp only [List.length_map, List.length_range, smul_eq_mul]
    omega

/-- Every `datetime`-representable date has a day number below 3 700 000,
so date differences always fit the protobuf 32-bit integer fields. -/
theorem dayNumber_le (d : Date) (h : validDate d = true) : dayNumber d ≤ 3700000 := by
  unfold validDate at h
  simp only [Bool.and_eq_true, decide_eq_true_eq] at h
  obtain ⟨⟨⟨⟨⟨h1, h2⟩, h3⟩, h4⟩, h5⟩, h6⟩ := h
  have hm := monthDaysBefore_le d.year d.month
  have hdm := daysInMonth_le d.year d.month
  unfold dayNumber
  omega

/-- The derived `total_days` of any parseable request is inside the
protobuf signed 32-bit range. -/
theorem computeTotalDays_int32 (s e : String) (n : Int)
    (h : computeTotalDays s e = some n) : int32Ok n = true := by
  unfold computeTotalDays at h
  cases hs : parseDate s with
  | none => rw [hs] at h; exact absurd h (by simp)
  | some sd =>
    cases he : parseDate e with
    | none => rw [hs, he] at h; exact absurd h (by simp)
    | some ed =>
      rw [hs, he] at h
      simp only [Option.some.injEq] at h
      have hsv := dayNumber_le sd (parseDate_valid s sd hs)
      have hev := dayNumber_le ed (parseDate_valid e ed he)
      simp only [int32Ok, Bool.and_eq_true, decide_eq_true_eq]
      constructor
      · omega
      · omega

/-! ## The day/date invariant of assembled daily plans -/

/-- Entries carry days `k+1, k+2, ...` in order, each dated
`start + (day - 1)`. -/
def planSpecFrom (sd : Date) : Nat → List DailyPlanEntry → Prop
  | _, [] => True
  | k, e :: rest =>
    e.day = k + 1 ∧ e.date = formatDate (addDays sd k) ∧ planSpecFrom sd (k + 1) rest

theorem planSpecFrom_get (sd : Date) :
    ∀ (l : List DailyPlanEntry) (k : Nat), planSpecFrom sd k l →
      ∀ (i : Nat) (h : i < l.length),
        (l.get ⟨i, h⟩).day = k + i + 1 ∧ (l.get ⟨i, h⟩).date = formatDate (addDays sd (k + i)) := by
  intro l
  induction l with
  | nil => intro k _ i h; exact absurd h (by simp)
  | cons e rest ih =>
    intro k hp i h
    obtain ⟨h1, h2, h3⟩ := hp
    cases i with
    | zero => exact ⟨h1, h2⟩
    | succ j =>
      have hj : j < rest.length := Nat.lt_of_succ_lt_succ (by simpa using h)
      obtain ⟨ihd, ihdate⟩ := ih (k + 1) h3 j hj
      have hg : ((e :: rest).get ⟨j + 1, h⟩) = rest.get ⟨j, hj⟩ := rfl
      constructor
      · rw [hg, ihd]; omega
      · rw [hg, ihdate]
        have hk : k + 1 + j = k + (j + 1) := by omega
        rw [hk]

theorem planSpecFrom_append_one (sd : Date) (l : List DailyPlanEntry)
    (e : DailyPlanEntry) :
    ∀ k, planSpecFrom sd k l → e.day = k + l.length + 1 →
      e.date = formatDate (addDays sd (k + l.length)) →
      planSpecFrom sd k (l ++ [e]) := by
  induction l with
  | nil =>
    intro k _ h1 h2
    exact ⟨by simpa using h1, by simpa using h2, trivial⟩
  | cons a rest ih =>
    intro k hp h1 h2
    obtain ⟨p1, p2, p3⟩ := hp
    refine ⟨p1, p2, ih (k + 1) p3 ?_ ?_⟩
    · rw [h1]; simp only [List.length_cons]; omega
    · rw [h2]
      have hk : k + (a :: rest).length = k + 1 + rest.length := by
        simp only [List.length_cons]; omega
      rw [hk]

theorem planSpecFrom_take (sd : Date) :
    ∀ (l : List DailyPlanEntry) (k n : Nat), planSpecFrom sd k l →
      planSpecFrom sd k (l.take n) := by
  intro l
  induction l with
  | nil => intro k n _; cases n <;> trivial
  | cons e rest ih =>
    intro k n hp
    cases n with
    | zero => trivial
    | succ m => exact ⟨hp.1, hp.2.1, ih (k + 1) m hp.2.2⟩

theorem planSpecFrom_pySliceTo (sd : Date) (l : List DailyPlanEntry) (k : Nat) (n : Int)
    (hp : planSpecFrom sd k l) : planSpecFrom sd k (pySliceTo l n) := by
  unfold pySliceTo
  split <;> exact planSpecFrom_take sd l k _ hp

theorem createDailyPlanFromCamp_eq (camp : CampInfo) (day : Nat) (td : TripData)
    (sd : Date) (hs : parseDate td.start_date = some sd) :
    createDailyPlanFromCamp camp day td = some
      { day := day
        date := formatDate (addDays sd (day - 1))
        location :=
          { name := camp.name.getD ("Camping " ++ toString day)
            address := camp.address.getD "Adres bilgisi yok"
            site_url := camp.site_url.getD ""
            latitude := camp.latitude.getD 39
            longitude := camp.longitude.getD 35 } } := by
  unfold createDailyPlanFromCamp
  rw [hs]
  rfl

theorem regexLoop_planSpec (td : TripData) (sd : Date)
    (hs : parseDate td.start_date = some sd) :
    ∀ (cs : List String) (plans r : List DailyPlanEntry),
      planSpecFrom sd 0 plans → regexLoop td cs plans = some r →
      planSpecFrom sd 0 r := by
  intro cs
  induction cs with
  | nil =>
    intro plans r hp h
    cases h
    exact hp
  | cons c cs ih =>
    intro plans r hp h
    unfold regexLoop at h
    rw [createDailyPlanFromCamp_eq _ _ _ _ hs] at h
    exact ih _ r (planSpecFrom_append_one sd plans _ 0 hp (by simp) (by simp)) h

theorem lineScan_planSpec (td : TripData) (sd : Date)
    (hs : parseDate td.start_date = some sd) :
    ∀ (lines : List (List Char)) (plans : List DailyPlanEntry) (camp : CampInfo)
      (r : List DailyPlanEntry × CampInfo),
      planSpecFrom sd 0 plans → lineScan td lines plans camp = some r →
      planSpecFrom sd 0 r.1 := by
  intro lines
  induction lines with
  | nil =>
    intro plans camp r hp h
    cases h
    exact hp
  | cons lraw ls ih =>
    intro plans camp r hp h
    unfold lineScan at h
    simp only [] at h
    by_cases hc1 : ("- i̇sim:".data.isPrefixOf (lowerList (stripList lraw)) ||
        "- isim:".data.isPrefixOf (lowerList (stripList lraw))) = true
    · rw [if_pos hc1] at h
      cases hac : afterColonStripped (stripList lraw) with
      | none => rw [hac] at h; exact absurd h (by simp)
      | some v =>
        simp only [hac] at h
        by_cases hc2 : campNonempty camp = true
        · rw [if_pos hc2] at h
          rw [createDailyPlanFromCamp_eq _ _ _ _ hs] at h
          exact ih _ _ r (planSpecFrom_append_one sd plans _ 0 hp (by simp) (by simp)) h
        · rw [if_neg hc2] at h
          exact ih _ _ r hp h
    · rw [if_neg hc1] at h
      by_cases hc2 : ("- adres:".data.isPrefixOf (lowerList (stripList lraw))) = true
      · rw [if_pos hc2] at h
        cases hac : afterColonStripped (stripList lraw) with
        | none => rw [hac] at h; exact absurd h (by simp)
        | some v => simp only [hac] at h; exact ih _ _ r hp h
      · rw [if_neg hc2] at h
        by_cases hc3 : ("- web sitesi:".data.isPrefixOf (lowerList (stripList lraw)) ||
            "- website:".data.isPrefixOf (lowerList (stripList lraw))) = true
        · rw [if_pos hc3] at h
          cases hac : afterColonStripped (stripList lraw) with
          | none => rw [hac] at h; exact absurd h (by simp)
          | some v => simp only [hac] at h; exact ih _ _ r hp h
        · rw [if_neg hc3] at h
          by_cases hc4 : ("- latitude:".data.isPrefixOf (lowerList (stripList lraw))) = true
          · rw [if_pos hc4] at h
            cases hac : afterColonStripped (stripList lraw) with
            | none => rw [hac] at h; exact absurd h (by simp)
            | some v => simp only [hac] at h; exact ih _ _ r hp h
          · rw [if_neg hc4] at h
            by_cases hc5 : ("- longitude:".data.isPrefixOf (lowerList (stripList lraw))) = true
            · rw [if_pos hc5] at h
              cases hac : afterColonStripped (stripList lraw) with
              | none => rw [hac] at h; exact absurd h (by simp)
              | some v => simp only [hac] at h; exact ih _ _ r hp h
            · rw [if_neg hc5] at h
              exact ih _ _ r hp h

theorem extractBranches_planSpec (camps : List String) (text : String)
    (td : TripData) (sd : Date) (hs : parseDate td.start_date = some sd)
    (plans : List DailyPlanEntry)
    (h : extractBranches camps text td = some plans) : planSpecFrom sd 0 plans := by
  have h0 : planSpecFrom sd 0 ([] : List DailyPlanEntry) := by trivial
  unfold extractBranches at h
  split at h
  · cases hls : lineScan td (splitOnChar '\n' text.data) [] {} with
    | none => rw [hls] at h; exact absurd h (by simp)
    | some sc =>
      have hsc := lineScan_planSpec td sd hs _ [] {} sc h0 hls
      simp only [hls, createDailyPlanFromCamp_eq _ _ _ _ hs] at h
      by_cases hcn : campNonempty sc.2 = true
      · rw [if_pos hcn] at h
        cases h
        exact planSpecFrom_append_one sd sc.1 _ 0 hsc (by simp) (by simp)
      · rw [if_neg hcn] at h
        cases h
        exact hsc
  · exact regexLoop_planSpec td sd hs _ _ plans h0 h

/-- The plan-invariant theorem for the whole of `_extract_camp_info`:
whatever `re.findall` returned and whatever text the researcher produced,
the assembled entries carry days `1..N` with dates
`start_date + (day - 1)`. -/
theorem extractCampInfo_planSpec (camps : List String) (text : String)
    (td : TripData) (sd : Date) (hs : parseDate td.start_date = some sd) :
    planSpecFrom sd 0 (extractCampInfo camps text td) := by
  have hdate0 : td.start_date = formatDate (addDays sd 0) := by
    rw [show addDays sd 0 = sd from rfl]
    exact (formatDate_of_parse _ _ hs).symm
  have hfb : planSpecFrom sd 0 [fallbackEntry406 td] := ⟨rfl, hdate0, trivial⟩
  have hex : planSpecFrom sd 0 [exceptEntry423 td] := ⟨rfl, hdate0, trivial⟩
  unfold extractCampInfo
  cases hbody : extractCampInfoBody camps text td with
  | none => exact hex
  | some l =>
    unfold extractCampInfoBody at hbody
    cases hbr : extractBranches camps text td with
    | none => rw [hbr] at hbody; exact absurd hbody (by simp)
    | some plans =>
      rw [hbr] at hbody
      cases hbody
      apply planSpecFrom_pySliceTo
      split
      · exact hfb
      · exact extractBranches_planSpec camps text td sd hs plans hbr

/-- The length bounds for `_extract_camp_info`: with `total_days ≥ 1` the
result has between 1 and `total_days` entries (the fallback guarantees the
lower bound, the final slice the upper). -/
theorem extractCampInfo_length (camps : List String) (text : String)
    (td : TripData) (h1 : 1 ≤ td.total_days) :
    1 ≤ (extractCampInfo camps text td).length ∧
    ((extractCampInfo camps text td).length : Int) ≤ td.total_days := by
  unfold extractCampInfo
  cases hbody : extractCampInfoBody camps text td with
  | none =>
    constructor
    · simp
    · simp
      omega
  | some l =>
    unfold extractCampInfoBody at hbody
    cases hbr : extractBranches camps text td with
    | none => rw [hbr] at hbody; exact absurd hbody (by simp)
    | some plans =>
      rw [hbr] at hbody
      cases hbody
      have hne : 1 ≤ (if plans.isEmpty then [fallbackEntry406 td] else plans).length := by
        cases plans with
        | nil => simp
        | cons a rest => simp
      unfold pySliceTo
      rw [if_pos (by omega : (0 : Int) ≤ td.total_days)]
      have htn : (td.total_days.toNat : Int) = td.total_days :=
        Int.toNat_of_nonneg (by omega)
      constructor
      · rw [List.length_take]
        exact Nat.le_min.mpr ⟨by omega, hne⟩
      · rw [List.length_take]
        have hm : min td.total_days.toNat
            (if plans.isEmpty then [fallbackEntry406 td] else plans).length ≤
            td.total_days.toNat := Nat.min_le_left _ _
        omega

/-! ## C7 -/

/-- C7 (confirmed): `_extract_camp_info` is total — every raise inside its
`try` is resolved to the default single-entry plan by its own `except` —
and for `total_days ≥ 1` it returns between 1 and `total_days` entries,
whatever `re.findall` returned and whatever the research text was. -/
theorem C7_extract_total (camps : List String) (text : String) (td : TripData)
    (h : 1 ≤ td.total_days) :
    1 ≤ (extractCampInfo camps text td).length ∧
    ((extractCampInfo camps text td).length : Int) ≤ td.total_days :=
  extractCampInfo_length camps text td h

/-- Shared concrete request for witnesses: 2024-06-01 to 2024-06-03. -/
def wReq : TripRequest :=
  ⟨"u1", "Gezi", "d", "Ankara", "Izmir", "2024-06-01", "2024-06-03"⟩

def wTd : TripData := toTripData wReq 3

/-- A research text in the exact line format the researcher prompt asks
for, with two camps. -/
def wText : String :=
  "- İsim: Alfa Camp\n- Adres: Yol 1\n- İsim: Beta Camp\n- Adres: Yol 2"

/-- C7 witness: on a concrete unusable text the extractor returns one
default entry, within the bounds. -/
theorem C7_witness :
    1 ≤ (extractCampInfo [] "araştırma başarısız" wTd).length ∧
    ((extractCampInfo [] "araştırma başarısız" wTd).length : Int) ≤ wTd.total_days :=
  C7_extract_total [] "araştırma başarısız" wTd (by decide)

/-! ## C5 -/

/-- C5 (confirmed): in every daily plan `_extract_camp_info` assembles
(for a parseable `start_date`), the `day` values are exactly `1..N` in
order — entry `i` carries day `i+1` — and each entry's date is
`start_date + (day - 1)` rendered in the same zero-padded `YYYY-MM-DD`
format as the input. -/
theorem C5_daily_plan_invariant (camps : List String) (text : String)
    (td : TripData) (sd : Date) (hs : parseDate td.start_date = some sd) :
    ∀ (i : Nat) (h : i < (extractCampInfo camps text td).length),
      ((extractCampInfo camps text td).get ⟨i, h⟩).day = i + 1 ∧
      ((extractCampInfo camps text td).get ⟨i, h⟩).date = formatDate (addDays sd i) := by
  intro i h
  have hres := planSpecFrom_get sd (extractCampInfo camps text td) 0
    (extractCampInfo_planSpec camps text td sd hs) i h
  simpa using hres

/-- C5 witness: on a concrete two-camp research text the second entry has
day 2 and date 2024-06-02. -/
theorem C5_witness :
    ((extractCampInfo [] wText wTd).get ⟨1, by decide⟩).day = 2 ∧
    ((extractCampInfo [] wText wTd).get ⟨1, by decide⟩).date = "2024-06-02" := by
  have h := C5_daily_plan_invariant [] wText wTd ⟨2024, 6, 1⟩ (by decide) 1 (by decide)
  refine ⟨by simpa using h.1, ?_⟩
  rw [h.2]
  decide

/-! ## C6 infrastructure: texts with no extractable camp line -/

/-- A stripped-and-lowered line that triggers one of the five branches of
the alternative scan (grouped exactly as the scan's conditions). -/
def isCampLine (low : List Char) : Bool :=
  ("- i̇sim:".data.isPrefixOf low || "- isim:".data.isPrefixOf low) ||
  "- adres:".data.isPrefixOf low ||
  ("- web sitesi:".data.isPrefixOf low || "- website:".data.isPrefixOf low) ||
  "- latitude:".data.isPrefixOf low ||
  "- longitude:".data.isPrefixOf low

/-- No line of the text triggers any branch of the alternative scan —
the text is unusable for extraction. -/
def unusableText (s : String) : Bool :=
  (splitOnChar '\n' s.data).all (fun l => !(isCampLine (lowerList (stripList l))))

theorem lineScan_unusable (td : TripData) :
    ∀ (lines : List (List Char)),
      (∀ l ∈ lines, isCampLine (lowerList (stripList l)) = false) →
      ∀ plans camp, lineScan td lines plans camp = some (plans, camp) := by
  intro lines
  induction lines with
  | nil => intro _ plans camp; rfl
  | cons lraw ls ih =>
    intro hall plans camp
    have hl := hall lraw (List.mem_cons_self _ _)
    have hrest : ∀ l ∈ ls, isCampLine (lowerList (stripList l)) = false :=
      fun l hm => hall l (List.mem_cons_of_mem _ hm)
    unfold isCampLine at hl
    obtain ⟨hl, c5⟩ := Bool.or_eq_false_iff.mp hl
    obtain ⟨hl, c4⟩ := Bool.or_eq_false_iff.mp hl
    obtain ⟨hl, c3⟩ := Bool.or_eq_false_iff.mp hl
    obtain ⟨c1, c2⟩ := Bool.or_eq_false_iff.mp hl
    unfold lineScan
    simp only []
    rw [if_neg (ne_true_of_eq_false c1), if_neg (ne_true_of_eq_false c2),
      if_neg (ne_true_of_eq_false c3), if_neg (ne_true_of_eq_false c4),
      if_neg (ne_true_of_eq_false c5)]
    exact ih hrest plans camp

theorem pySliceTo_singleton {α : Type} (e : α) (n : Int) (h : 1 ≤ n) :
    pySliceTo [e] n = [e] := by
  unfold pySliceTo
  rw [if_pos (by omega : (0 : Int) ≤ n)]
  have h2 : n.toNat = (n.toNat - 1) + 1 := by omega
  rw [h2]
  simp

/-- On an unusable text with no regex matches, extraction returns exactly
the deterministic default plan. -/
theorem extractCampInfo_unusable (text : String) (td : TripData)
    (hu : unusableText text = true) (h1 : 1 ≤ td.total_days) :
    extractCampInfo [] text td = [fallbackEntry406 td] := by
  have hall : ∀ l ∈ splitOnChar '\n' text.data,
      isCampLine (lowerList (stripList l)) = false := by
    intro l hm
    unfold unusableText at hu
    have hx := (List.all_eq_true.mp hu) l hm
    simpa using hx
  have hls := lineScan_unusable td _ hall [] {}
  have hbr : extractBranches [] text td = some [] := by
    unfold extractBranches
    rw [if_pos (show ([] : List String).isEmpty = true from rfl), hls]
    rfl
  unfold extractCampInfo extractCampInfoBody
  rw [hbr]
  simp only [List.isEmpty_nil, if_true]
  rw [pySliceTo_singleton _ _ h1]

/-! ## C6 -/

/-- C6 (confirmed): when the unit for theme 2 ("tarihi") fails — its
raised exception is caught in place by `_run_research_parallel` and
replaced by the error string, which extraction finds unusable — while
themes 1 and 3 run with arbitrary results, the final collection still has
3 entries in registration order, and entry 2 carries theme 2's own label
and description with the deterministic default daily plan. -/
theorem C6_theme2_fallback (f : String → List String) (t1 t3 m : String)
    (req : TripRequest) (sd ed : Date)
    (hs : parseDate req.start_date = some sd) (he : parseDate req.end_date = some ed)
    (hle : dayNumber sd ≤ dayNumber ed)
    (hfind : f ("tarihi araştırması başarısız: " ++ m) = [])
    (hu : unusableText ("tarihi araştırması başarısız: " ++ m) = true) :
    (generateTripPlan f ⟨.ok t1, .error m, .ok t3⟩ req).trip_options.length = 3 ∧
    ((generateTripPlan f ⟨.ok t1, .error m, .ok t3⟩ req).trip_options.map
      (fun o => o.theme)) =
      ["Doğal Güzellikler Rotası", "Tarihi Güzellikler Rotası", "Macera ve Aksiyon Rotası"] ∧
    (generateTripPlan f ⟨.ok t1, .error m, .ok t3⟩ req).trip_options[1]? = some
      { theme := "Tarihi Güzellikler Rotası"
        description := "Antik kentler, kaleler ve tarihi yapılar gibi kültürel mirasları barındıran bir rota."
        trip := { user_id := req.user_id
                  name := req.name ++ " - Tarihi Güzellikler Rotası"
                  description := req.description
                  start_position := req.start_position
                  end_position := req.end_position
                  start_date := req.start_date
                  end_date := req.end_date
                  total_days := (dayNumber ed : Int) - (dayNumber sd : Int) + 1 }
        daily_plan := [{ day := 1, date := req.start_date,
                         location := { name := "Varsayılan Kamp Alanı"
                                       address := req.start_position ++ " yakını kamp alanı"
                                       site_url := ""
                                       latitude := 39
                                       longitude := 35 } }] } := by
  have hcomp : computeTotalDays req.start_date req.end_date =
      some ((dayNumber ed : Int) - (dayNumber sd : Int) + 1) := by
    unfold computeTotalDays
    rw [hs, he]
  unfold generateTripPlan
  rw [hcomp]
  refine ⟨rfl, rfl, ?_⟩
  have hext : extractCampInfo
      (f ("tarihi araştırması başarısız: " ++ m))
      ("tarihi araştırması başarısız: " ++ m)
      (toTripData req ((dayNumber ed : Int) - (dayNumber sd : Int) + 1)) =
      [fallbackEntry406 (toTripData req ((dayNumber ed : Int) - (dayNumber sd : Int) + 1))] := by
    rw [hfind]
    exact extractCampInfo_unusable _ _ hu
      (by show (1 : Int) ≤ (dayNumber ed : Int) - (dayNumber sd : Int) + 1; omega)
  show some (mkTripOption f (toTripData req ((dayNumber ed : Int) - (dayNumber sd : Int) + 1))
    "tarihi" ("tarihi araştırması başarısız: " ++ m)) = _
  have hname : req.name ++ " - " ++ "Tarihi Güzellikler Rotası" =
      req.name ++ " - Tarihi Güzellikler Rotası" := by
    have h2 : (" - " ++ "Tarihi Güzellikler Rotası" : String) =
        " - Tarihi Güzellikler Rotası" := rfl
    rw [String.append_assoc, h2]
  unfold mkTripOption
  rw [hext, ← hname]
  rfl

/-- C6 witness: theme 2 raising "boom" on the concrete 3-day request. -/
theorem C6_witness :
    (generateTripPlan (fun _ => []) ⟨.ok "", .error "boom", .ok ""⟩ wReq).trip_options.length = 3 ∧
    ((generateTripPlan (fun _ => []) ⟨.ok "", .error "boom", .ok ""⟩ wReq).trip_options.map
      (fun o => o.theme)) =
      ["Doğal Güzellikler Rotası", "Tarihi Güzellikler Rotası", "Macera ve Aksiyon Rotası"] ∧
    (generateTripPlan (fun _ => []) ⟨.ok "", .error "boom", .ok ""⟩ wReq).trip_options[1]? = some
      { theme := "Tarihi Güzellikler Rotası"
        description := "Antik kentler, kaleler ve tarihi yapılar gibi kültürel mirasları barındıran bir rota."
        trip := { user_id := "u1"
                  name := "Gezi - Tarihi Güzellikler Rotası"
                  description := "d"
                  start_position := "Ankara"
                  end_position := "Izmir"
                  start_date := "2024-06-01"
                  end_date := "2024-06-03"
                  total_days := 3 }
        daily_plan := [{ day := 1, date := "2024-06-01",
                         location := { name := "Varsayılan Kamp Alanı"
                                       address := "Ankara yakını kamp alanı"
                                       site_url := ""
                                       latitude := 39
                                       longitude := 35 } }] } := by
  have h := C6_theme2_fallback (fun _ => []) "" "" "boom" wReq ⟨2024, 6, 1⟩ ⟨2024, 6, 3⟩
    (by decide) (by decide) (by decide) rfl (by decide)
  refine ⟨h.1, h.2.1, ?_⟩
  have h3 := h.2.2
  rw [show ((dayNumber ⟨2024, 6, 3⟩ : Int) - (dayNumber ⟨2024, 6, 1⟩ : Int) + 1) = 3 from
    by decide] at h3
  exact h3

/-! ## C1 -/

theorem all_map_validEntry (l : List DailyPlanEntry) :
    (l.map entryToJson).all validEntryJson = true := by
  induction l with
  | nil => rfl
  | cons a as ih =>
    show (validEntryJson (entryToJson a) && (as.map entryToJson).all validEntryJson) = true
    rw [ih]
    rfl

/-- Every agent-built option with a non-empty daily plan passes the
spec's Validator on its JSON encoding (the other conjuncts — theme,
description, the 8 trip fields, day/date/location presence — hold by
construction). -/
theorem validOptionJson_encode (opt : TripOption) (hne : opt.daily_plan ≠ []) :
    validOptionJson (optionToJson opt) = true := by
  cases hdp : opt.daily_plan with
  | nil => exact absurd hdp hne
  | cons e rest =>
    simp only [validOptionJson, validSingleJson, optionToJson, tripToJson, hasKeyJ, hdp,
      List.lookup, List.map, List.all_cons, Bool.and_eq_true, List.all_eq_true]
    simp
    exact ⟨rfl, fun a _ => rfl⟩

theorem mkTripOption_valid (f : String → List String) (td : TripData)
    (agent_name text : String) (h : 1 ≤ td.total_days) :
    validOptionJson (optionToJson (mkTripOption f td agent_name text)) = true := by
  apply validOptionJson_encode
  have h1 := (extractCampInfo_length (f text) text td h).1
  intro hh
  have hdp : (mkTripOption f td agent_name text).daily_plan =
      extractCampInfo (f text) text td := rfl
  rw [hdp] at hh
  rw [hh] at h1
  simp at h1

/-- C1 (corrected by `C1_counterexample`): when every theme's generation
call fails (each worker raises), the orchestrator still returns exactly
3 TripOptions, and provided the parseable request satisfies
`start_date ≤ end_date` (so `total_days ≥ 1`), each option passes the
spec's Validator: theme, description, the full 8-field trip mapping, and
a non-empty daily plan of well-formed entries. -/
theorem C1_total_failure_shape (f : String → List String) (e1 e2 e3 : String)
    (req : TripRequest) (sd ed : Date)
    (hs : parseDate req.start_date = some sd) (he : parseDate req.end_date = some ed)
    (hle : dayNumber sd ≤ dayNumber ed) :
    (generateTripPlan f ⟨.error e1, .error e2, .error e3⟩ req).trip_options.length = 3 ∧
    ∀ opt ∈ (generateTripPlan f ⟨.error e1, .error e2, .error e3⟩ req).trip_options,
      validOptionJson (optionToJson opt) = true := by
  have hcomp : computeTotalDays req.start_date req.end_date =
      some ((dayNumber ed : Int) - (dayNumber sd : Int) + 1) := by
    unfold computeTotalDays
    rw [hs, he]
  unfold generateTripPlan
  rw [hcomp]
  refine ⟨rfl, ?_⟩
  intro opt hmem
  simp only [createJsonFromResearch, runResearchParallel, List.map, List.mem_cons,
    List.not_mem_nil, or_false] at hmem
  have hn : (1 : Int) ≤
      (toTripData req ((dayNumber ed : Int) - (dayNumber sd : Int) + 1)).total_days := by
    show (1 : Int) ≤ (dayNumber ed : Int) - (dayNumber sd : Int) + 1
    omega
  rcases hmem with rfl | rfl | rfl <;> exact mkTripOption_valid _ _ _ _ hn

/-- C1 counterexample: with every worker failing and a parseable request
whose end date precedes its start date, the collection still has 3
entries, but they do not all pass the Validator (their daily plans are
sliced to empty by the negative `total_days`). -/
theorem C1_counterexample :
    (generateTripPlan (fun _ => []) ⟨.error "e1", .error "e2", .error "e3"⟩
      ⟨"u", "Gezi", "d", "Ankara", "Izmir", "2024-06-03", "2024-06-01"⟩).trip_options.length
      = 3 ∧
    ¬ ((generateTripPlan (fun _ => []) ⟨.error "e1", .error "e2", .error "e3"⟩
      ⟨"u", "Gezi", "d", "Ankara", "Izmir", "2024-06-03", "2024-06-01"⟩).trip_options.all
        (fun o => validOptionJson (optionToJson o)) = true) := by
  exact ⟨by decide, by decide⟩

/-- C1 witness: total worker failure on the concrete 3-day request gives
3 options that all validate. -/
theorem C1_witness :
    (generateTripPlan (fun _ => []) ⟨.error "e1", .error "e2", .error "e3"⟩
      wReq).trip_options.length = 3 ∧
    (generateTripPlan (fun _ => []) ⟨.error "e1", .error "e2", .error "e3"⟩
      wReq).trip_options.all (fun o => validOptionJson (optionToJson o)) = true := by
  have h := C1_total_failure_shape (fun _ => []) "e1" "e2" "e3" wReq
    ⟨2024, 6, 1⟩ ⟨2024, 6, 3⟩ (by decide) (by decide) (by decide)
  exact ⟨h.1, List.all_eq_true.mpr h.2⟩

/-! ## Lemmas for the gRPC option loop -/

theorem except_bind_ok {α β : Type} (a : α) (f : α → Except Unit β) :
    (Except.ok a : Except Unit α) >>= f = f a := rfl

theorem protoStr_getD (k : String) (t : List (String × Json)) (d : String)
    (h : strOrAbsentW k t = true) :
    ∃ s, protoStr ((t.lookup k).getD (.str d)) = .ok s := by
  unfold strOrAbsentW at h
  cases hl : t.lookup k with
  | none => exact ⟨d, rfl⟩
  | some v =>
    rw [hl] at h
    cases v with
    | str s => exact ⟨s, rfl⟩
    | null => simp at h
    | bool b => simp at h
    | int n => simp at h
    | num q => simp at h
    | arr xs => simp at h
    | obj kvs => simp at h

theorem wellTypedOption_encode (t : TripOption) (h : int32Ok t.trip.total_days = true) :
    wellTypedOption (optionToJson t) = true := h

theorem processOptionBody_ok (i : Nat) (o : Json) (h : wellTypedOption o = true) :
    ∃ g, processOptionBody i o = .ok g := by
  cases o with
  | obj kvs =>
    unfold wellTypedOption at h
    rw [Bool.and_eq_true, Bool.and_eq_true, Bool.and_eq_true] at h
    obtain ⟨⟨⟨hth, hde⟩, hdp⟩, htr⟩ := h
    obtain ⟨sth, hsth⟩ := protoStr_getD "theme" kvs ("Tema " ++ toString (i + 1)) hth
    obtain ⟨sde, hsde⟩ := protoStr_getD "description" kvs "" hde
    have hiter : ∃ ds, pyIter ((kvs.lookup "daily_plan").getD (.arr [])) = .ok ds := by
      cases hl : kvs.lookup "daily_plan" with
      | none => exact ⟨[], rfl⟩
      | some v =>
        rw [hl] at hdp
        cases v with
        | arr xs => exact ⟨xs, rfl⟩
        | str s => exact ⟨_, rfl⟩
        | obj l2 => exact ⟨_, rfl⟩
        | null => simp at hdp
        | bool b => simp at hdp
        | int n => simp at hdp
        | num q => simp at hdp
    obtain ⟨ds, hds⟩ := hiter
    cases htl : kvs.lookup "trip" with
    | none =>
      apply Exists.intro
      unfold processOptionBody
      simp only []
      rw [hds]
      simp only [except_bind_ok, htl, Option.getD_none, hsth, hsde]
      rfl
    | some v =>
      rw [htl] at htr
      cases v with
      | null => simp at htr
      | bool b => simp at htr
      | int n => simp at htr
      | num q => simp at htr
      | arr xs => simp at htr
      | str s => simp at htr
      | obj tk =>
        simp only [] at htr
        rw [Bool.and_eq_true, Bool.and_eq_true, Bool.and_eq_true, Bool.and_eq_true,
          Bool.and_eq_true, Bool.and_eq_true, Bool.and_eq_true, Bool.and_eq_true] at htr
        obtain ⟨⟨⟨⟨⟨⟨⟨⟨h1, h2⟩, h3⟩, h4⟩, h5⟩, h6⟩, h7⟩, h8⟩, h9⟩ := htr
        obtain ⟨s1, hs1⟩ := protoStr_getD "user_id" tk "" h1
        obtain ⟨s2, hs2⟩ := protoStr_getD "name" tk ("Tema " ++ toString (i + 1)) h2
        obtain ⟨s3, hs3⟩ := protoStr_getD "description" tk "" h3
        obtain ⟨s4, hs4⟩ := protoStr_getD "start_position" tk "" h4
        obtain ⟨s5, hs5⟩ := protoStr_getD "end_position" tk "" h5
        obtain ⟨s6, hs6⟩ := protoStr_getD "start_date" tk "" h6
        obtain ⟨s7, hs7⟩ := protoStr_getD "end_date" tk "" h7
        obtain ⟨s8, hs8⟩ := protoStr_getD "route_summary" tk "" h8
        unfold tdOkW at h9
        cases htd : List.lookup "total_days" tk with
        | none =>
          apply Exists.intro
          unfold processOptionBody
          simp only []
          rw [hds]
          simp only [except_bind_ok, htl, Option.getD_some, hs1, hs2, hs3, hs4, hs5, hs6,
            hs7, hs8, hsth, hsde, pyIn, htd]
          rfl
        | some v =>
          simp only [htd] at h9
          cases hpi : pyIntOfJson v with
          | none =>
            simp only [hpi] at h9
            exact absurd h9 (by simp)
          | some n =>
            simp only [hpi] at h9
            have hgate : ∀ fb : Int,
                protoInt (.int (if ((List.lookup "total_days" tk).isSome) then
                  (intIndexCaught (.obj tk) "total_days").getD fb else 1)) = .ok n := by
              intro fb
              rw [htd]
              show protoInt (.int ((intIndexCaught (.obj tk) "total_days").getD fb)) = .ok n
              have hidx : intIndexCaught (.obj tk) "total_days" = some n := by
                show (List.lookup "total_days" tk).bind pyIntOfJson = some n
                rw [htd]
                show pyIntOfJson v = some n
                exact hpi
              rw [hidx]
              show (if int32Ok n then Except.ok n else Except.error ()) = Except.ok n
              rw [h9]
              rfl
            apply Exists.intro
            unfold processOptionBody
            simp only []
            rw [hds]
            simp only [except_bind_ok, htl, Option.getD_some, hs1, hs2, hs3, hs4, hs5, hs6,
              hs7, hs8, hsth, hsde, pyIn, hgate]
            rfl
  | null => simp [wellTypedOption] at h
  | bool b => simp [wellTypedOption] at h
  | int n => simp [wellTypedOption] at h
  | num q => simp [wellTypedOption] at h
  | str s => simp [wellTypedOption] at h
  | arr xs => simp [wellTypedOption] at h

theorem processOptions_length (l : List Json) :
    ∀ i, (∀ o ∈ l, wellTypedOption o = true) → (processOptions i l).length = l.length := by
  induction l with
  | nil => intro i _; rfl
  | cons o rest ih =>
    intro i hall
    obtain ⟨g, hg⟩ := processOptionBody_ok i o (hall o (List.mem_cons_self _ _))
    unfold processOptions
    rw [hg]
    simp only [List.length_cons]
    rw [ih (i + 1) (fun x hx => hall x (List.mem_cons_of_mem _ hx))]

theorem GeneratePlan_obj_list (req : TripRequest) (o0 : Json) (rest : List Json)
    (hwt : ∀ o ∈ o0 :: rest, wellTypedOption o = true) :
    GeneratePlan req (some (.obj [("trip_options", .arr (o0 :: rest))])) =
      ⟨⟨processOptions 0 (o0 :: rest)⟩, false⟩ ∧
    (processOptions 0 (o0 :: rest)).length = rest.length + 1 := by
  have hlen := processOptions_length (o0 :: rest) 0 hwt
  simp only [List.length_cons] at hlen
  constructor
  · have hresp : GeneratePlan req (some (.obj [("trip_options", .arr (o0 :: rest))])) =
        ⟨createTripOptionsResponse (.obj [("trip_options", .arr (o0 :: rest))]), false⟩ := rfl
    rw [hresp]
    have hbody : createTripOptionsResponse (.obj [("trip_options", .arr (o0 :: rest))]) =
        ⟨processOptions 0 (o0 :: rest)⟩ := by
      cases hpo : processOptions 0 (o0 :: rest) with
      | nil => rw [hpo] at hlen; exact absurd hlen.symm (by simp)
      | cons g gs =>
        have hb : createTripOptionsResponseBody
            (.obj [("trip_options", .arr (o0 :: rest))]) = .ok ⟨g :: gs⟩ := by
          show (if (processOptions 0 (o0 :: rest)).isEmpty = true
              then (Except.ok emptyOptionsResponse : Except Unit TripOptionsResponse)
              else Except.ok ⟨processOptions 0 (o0 :: rest)⟩) = Except.ok ⟨g :: gs⟩
          rw [hpo]
          rfl
        unfold createTripOptionsResponse
        rw [hb]
    rw [hbody]
  · exact hlen

theorem generateTripPlan_options_three (f : String → List String)
    (o : ResearchOutcomes) (req : TripRequest) :
    ∃ a b c, (generateTripPlan f o req).trip_options = [a, b, c] ∧
      int32Ok a.trip.total_days = true ∧ int32Ok b.trip.total_days = true ∧
      int32Ok c.trip.total_days = true := by
  unfold generateTripPlan
  cases hc : computeTotalDays req.start_date req.end_date with
  | some n =>
    have hn := computeTotalDays_int32 _ _ _ hc
    exact ⟨_, _, _, rfl, hn, hn, hn⟩
  | none =>
    refine ⟨_, _, _, rfl, ?_, ?_, ?_⟩ <;>
    · show int32Ok ((computeTotalDays req.start_date req.end_date).getD 3) = true
      rw [hc]
      decide

/-! ## C2 -/

/-- C2 (confirmed): for every inbound request, a generation failure or a
JSON-parse failure never surfaces as a transport-level error.  When
`json.loads` raises (`parsed = none`), the inner handler returns the
3-option fallback response with no status code set; when every worker
fails, the agent's own (fallback-flavoured) document parses and flows
through the normal path, again with no status code and a full 3-option
response.  The only code path that sets `StatusCode.INTERNAL` is the
outer handler, which these failure classes never reach. -/
theorem C2_no_transport_error (req : TripRequest) (f : String → List String)
    (e1 e2 e3 : String) :
    GeneratePlan req none = ⟨createFallbackOptionsResponse req, false⟩ ∧
    (createFallbackOptionsResponse req).trip_options.length = 3 ∧
    (GeneratePlan req (some (docToJson
      (generateTripPlan f ⟨.error e1, .error e2, .error e3⟩ req)))).statusSet = false ∧
    (GeneratePlan req (some (docToJson
      (generateTripPlan f ⟨.error e1, .error e2, .error e3⟩
        req)))).response.trip_options.length = 3 := by
  obtain ⟨a, b, c, habc, hia, hib, hic⟩ :=
    generateTripPlan_options_three f ⟨.error e1, .error e2, .error e3⟩ req
  have hdoc : docToJson (generateTripPlan f ⟨.error e1, .error e2, .error e3⟩ req) =
      .obj [("trip_options", .arr [optionToJson a, optionToJson b, optionToJson c])] := by
    unfold docToJson
    rw [habc]
    rfl
  have hwt : ∀ o ∈ [optionToJson a, optionToJson b, optionToJson c],
      wellTypedOption o = true := by
    intro o hm
    simp only [List.mem_cons, List.not_mem_nil, or_false] at hm
    rcases hm with rfl | rfl | rfl
    · exact wellTypedOption_encode _ hia
    · exact wellTypedOption_encode _ hib
    · exact wellTypedOption_encode _ hic
  have hmain := GeneratePlan_obj_list req (optionToJson a)
    [optionToJson b, optionToJson c] hwt
  refine ⟨rfl, rfl, ?_, ?_⟩
  · rw [hdoc, hmain.1]
  · rw [hdoc, hmain.1]
    show (processOptions 0 [optionToJson a, optionToJson b, optionToJson c]).length = 3
    rw [hmain.2]
    rfl

/-! ## C3 -/

/-- A fully well-formed upstream option entry, for concrete runs. -/
def wOpt (nm : String) : Json :=
  .obj [("theme", .str nm), ("description", .str "d"),
        ("trip", .obj [("user_id", .str "u"), ("name", .str "n"),
                       ("description", .str "x"), ("start_position", .str "A"),
                       ("end_position", .str "B"), ("start_date", .str "2024-06-01"),
                       ("end_date", .str "2024-06-02"), ("total_days", .int 2)]),
        ("daily_plan", .arr [.obj [("day", .int 1), ("date", .str "2024-06-01"),
          ("location", .obj [("name", .str "L"), ("address", .str "A1"),
                             ("site_url", .str ""), ("latitude", .num 39),
                             ("longitude", .num 35)])]])]

/-- An upstream document with only 2 entries where the spec demands K=3. -/
def wDoc2 : Json := .obj [("trip_options", .arr [wOpt "T1", wOpt "T2"])]

/-- The same entry shape with `total_days = 2^40`: `int()` succeeds on
it, but the `Trip(...)` constructor's `int32` check raises and the
option-level `except` skips the entry. -/
def wOptBig : Json :=
  .obj [("theme", .str "TBig"), ("description", .str "d"),
        ("trip", .obj [("user_id", .str "u"), ("name", .str "n"),
                       ("description", .str "x"), ("start_position", .str "A"),
                       ("end_position", .str "B"), ("start_date", .str "2024-06-01"),
                       ("end_date", .str "2024-06-02"), ("total_days", .int 1099511627776)]),
        ("daily_plan", .arr [.obj [("day", .int 1), ("date", .str "2024-06-01"),
          ("location", .obj [("name", .str "L"), ("address", .str "A1"),
                             ("site_url", .str ""), ("latitude", .num 39),
                             ("longitude", .num 35)])]])]

/-- A 3-entry document whose middle entry carries the out-of-range
`total_days`. -/
def wDocSkip : Json := .obj [("trip_options", .arr [wOpt "T1", wOptBig, wOpt "T2"])]

/-- C3 (corrected by `C3_counterexample`): the boundary check on
`trip_options` does not validate the entry count.  A document whose
`trip_options` is a non-empty list of well-typed entries (string fields
strings or absent, `trip` a mapping or absent, its `total_days`
convertible to an `int` in the protobuf 32-bit range, `daily_plan`
iterable or absent) is passed through entry by entry — `n` entries in,
`n` options out, no error status — for every `n ≥ 1`; the complete
3-entry default collection is substituted only when `trip_options` is
missing, not a list, or empty.  An individual entry that raises inside
the option loop (here: `total_days = 2^40`, out of `int32` range) is
skipped on its own, never triggering wholesale rejection: 3 entries in,
2 options out, still no error status. -/
theorem C3_count_passthrough (req : TripRequest) (o0 : Json) (rest : List Json)
    (hwt : ∀ o ∈ o0 :: rest, wellTypedOption o = true) :
    (GeneratePlan req (some (.obj [("trip_options", .arr (o0 :: rest))]))).statusSet
      = false ∧
    (GeneratePlan req
      (some (.obj [("trip_options", .arr (o0 :: rest))]))).response.trip_options.length
      = rest.length + 1 ∧
    (∀ kvs : List (String × Json), kvs.lookup "trip_options" = none →
      GeneratePlan req (some (.obj kvs)) = ⟨createFallbackOptionsResponse req, false⟩) ∧
    GeneratePlan req (some (.obj [("trip_options", .arr [])])) =
      ⟨createFallbackOptionsResponse req, false⟩ ∧
    (GeneratePlan wReq (some wDocSkip)).response.trip_options.length = 2 ∧
    (GeneratePlan wReq (some wDocSkip)).statusSet = false := by
  have hmain := GeneratePlan_obj_list req o0 rest hwt
  refine ⟨?_, ?_, ?_, rfl, rfl, rfl⟩
  · rw [hmain.1]
  · rw [hmain.1]
    exact hmain.2
  · intro kvs hk
    have hin : pyIn "trip_options" (Json.obj kvs) = .ok false := by
      show Except.ok (List.lookup "trip_options" kvs).isSome = Except.ok false
      rw [hk]
      rfl
    unfold GeneratePlan
    simp only []
    rw [hin]

/-- C3 counterexample: a parsed document with 2 well-formed entries is not
rejected — the server returns a 2-option response with no error status,
instead of substituting the 3-entry default collection. -/
theorem C3_counterexample :
    (GeneratePlan wReq (some wDoc2)).response.trip_options.length = 2 ∧
    (GeneratePlan wReq (some wDoc2)).statusSet = false ∧
    (createFallbackOptionsResponse wReq).trip_options.length = 3 := by
  exact ⟨rfl, rfl, rfl⟩

/-- C3 witness: the pass-through theorem applied to the concrete 2-entry
document. -/
theorem C3_witness :
    (GeneratePlan wReq (some (.obj [("trip_options", .arr [wOpt "T1", wOpt "T2"])]))).statusSet
      = false ∧
    (GeneratePlan wReq
      (some (.obj [("trip_options",
        .arr [wOpt "T1", wOpt "T2"])]))).response.trip_options.length = 2 := by
  have h := C3_count_passthrough wReq (wOpt "T1") [wOpt "T2"] (by decide)
  exact ⟨h.1, by simpa using h.2.1⟩
